import Mathlib

/-!
# XDP programmable packet scheduler: ingress and egress path

A shallow embedding of `src/common/common.h`, `src/xdp/xdp_scheduler.c` and
`src/tc/tc_scheduler.c`: the rule classifier, the per-class token bucket, the
ingress program `xdp_packet_classifier`, the five schedulers and the egress
program `tc_packet_scheduler`, and of the table writes of
`load_config_from_json` in `src/control/control_plane.c`, followed by theorems
about them.

Conventions of the embedding.
* C unsigned integers are natural numbers; every operation that can wrap in C
  is written with its explicit modulus (`% 2^32`, `% 2^64`).
* A pointer argument that the C function mutates becomes an extra component of
  the returned value (state passing).
* A packet buffer `[data, data_end)` is a list of bytes.
* BPF maps are lookup functions into `Option`; `none` is the `NULL` result of
  `bpf_map_lookup_elem`.
-/

namespace XdpSched

/-! ## Constants (`common.h`, `xdp_scheduler.c`) -/

/-- Enumerator `TC_DEFAULT` of `enum traffic_class`. -/
def TC_DEFAULT : Nat := 7

/-- Number of nanoseconds in a second, `NSEC_PER_SEC`. -/
def NSEC_PER_SEC : Nat := 1000000000

/-- Macro `ETH_P_IP`. -/
def ETH_P_IP : Nat := 0x0800

/-- Macro `IPPROTO_ICMP`. -/
def IPPROTO_ICMP : Nat := 1

/-- Macro `IPPROTO_TCP`. -/
def IPPROTO_TCP : Nat := 6

/-- Macro `IPPROTO_UDP`. -/
def IPPROTO_UDP : Nat := 17

/-- Macro `XDP_DROP`. -/
def XDP_DROP : Nat := 1

/-- Macro `XDP_PASS`. -/
def XDP_PASS : Nat := 2

/-- Number of rule slots the unrolled loop of `classify_packet` visits. -/
def RULE_SCAN : Nat := 16

/-! ## Data model (`common.h`) -/

/-- The 5-tuple `struct flow_tuple`; `padding` is the `__u8 padding[3]` array. -/
structure flow_tuple where
  src_ip : Nat
  dst_ip : Nat
  src_port : Nat
  dst_port : Nat
  protocol : Nat
  padding : List Nat
  deriving DecidableEq, Repr

/-- The per-flow record `struct flow_state`. -/
structure flow_state where
  packet_count : Nat
  byte_count : Nat
  last_seen : Nat
  class_id : Nat
  queue_id : Nat
  tokens : Nat
  last_token_update : Nat
  priority : Nat
  weight : Nat
  deficit : Nat
  deriving DecidableEq, Repr

/-- The per-class configuration `struct class_config`. -/
structure class_config where
  id : Nat
  rate_limit : Nat
  burst_size : Nat
  priority : Nat
  weight : Nat
  min_bandwidth : Nat
  max_bandwidth : Nat
  flags : Nat
  deriving DecidableEq, Repr

/-- The per-class queue counters `struct queue_stats`. -/
structure queue_stats where
  enqueued_packets : Nat
  enqueued_bytes : Nat
  dequeued_packets : Nat
  dequeued_bytes : Nat
  dropped_packets : Nat
  dropped_bytes : Nat
  current_qlen : Nat
  max_qlen : Nat
  total_latency_ns : Nat
  deriving DecidableEq, Repr

/-- The per-CPU counters `struct cpu_stats`. -/
structure cpu_stats where
  total_packets : Nat
  total_bytes : Nat
  classified_packets : Nat
  dropped_packets : Nat
  xdp_pass : Nat
  xdp_drop : Nat
  xdp_tx : Nat
  xdp_redirect : Nat
  deriving DecidableEq, Repr

/-- The global configuration `struct global_config`. -/
structure global_config where
  sched_algorithm : Nat
  default_class : Nat
  num_classes : Nat
  total_rate_limit : Nat
  flags : Nat
  quantum : Nat
  deriving DecidableEq, Repr

/-- The token bucket `struct token_bucket`: `tokens`, `rate` and `capacity` are
`__u32`, `last_update` is `__u64`. -/
structure token_bucket where
  tokens : Nat
  rate : Nat
  capacity : Nat
  last_update : Nat
  deriving DecidableEq, Repr

/-- The classification rule `struct class_rule`. -/
structure class_rule where
  src_ip : Nat
  src_ip_mask : Nat
  dst_ip : Nat
  dst_ip_mask : Nat
  src_port_min : Nat
  src_port_max : Nat
  dst_port_min : Nat
  dst_port_max : Nat
  protocol : Nat
  priority : Nat
  class_id : Nat
  deriving DecidableEq, Repr

/-- Range condition of a `struct token_bucket`: every field fits its C type. -/
def token_bucket.in_range (tb : token_bucket) : Prop :=
  tb.tokens < 2 ^ 32 ∧ tb.rate < 2 ^ 32 ∧ tb.capacity < 2 ^ 32 ∧ tb.last_update < 2 ^ 64

instance (tb : token_bucket) : Decidable tb.in_range := by
  unfold token_bucket.in_range
  infer_instance

/-! ## The table store

Modelled from the spec: the kernel helpers `bpf_map_lookup_elem` and
`bpf_map_update_elem` are not part of the repository.  Following the table
store interface of the specification (get/put by class id, by flow key, by rule
index; every lookup may be absent), a map is a lookup function into `Option`
and a put stores the value under its key. -/

/-- Modelled from the spec: the put of the table store interface
(`bpf_map_update_elem` with `BPF_ANY`), storing `v` under key `k`. -/
def map_update {κ : Type} {α : Type} [DecidableEq κ]
    (m : κ → Option α) (k : κ) (v : α) : κ → Option α :=
  fun k2 => if k2 = k then some v else m k2

/-- Modelled from the spec: the put of the table store on a table declared as
`BPF_MAP_TYPE_ARRAY` with `max_entries = n` (`bpf_map_update_elem` is not part
of the repository).  The array has the slots `0 .. n - 1`; a put at an index
outside the array is rejected and stores nothing. -/
def array_update {α : Type} (n : Nat) (m : Nat → Option α) (k : Nat) (v : α) :
    Nat → Option α :=
  if k < n then map_update m k v else m

/-- The BPF maps declared in `xdp_scheduler.c`. -/
structure xdp_maps where
  flow_table : flow_tuple → Option flow_state
  class_rules : Nat → Option class_rule
  class_config : Nat → Option class_config
  cpu_stats : Option cpu_stats
  global_config : Option global_config
  queue_stats : Nat → Option queue_stats
  token_buckets : Nat → Option token_bucket

/-! ## Rule classifier (`classify_packet`) -/

/-- Body of the loop of `classify_packet` for one rule that was found in the
table: `none` stands for `continue`, `some c` for `return c`. -/
def classify_rule (rule : class_rule) (flow : flow_tuple) : Option Nat :=
  if rule.protocol ≠ 0 ∧ rule.protocol ≠ flow.protocol then none
  else if rule.src_ip_mask ≠ 0 ∧
      (flow.src_ip &&& rule.src_ip_mask) ≠ (rule.src_ip &&& rule.src_ip_mask) then none
  else if rule.dst_ip_mask ≠ 0 ∧
      (flow.dst_ip &&& rule.dst_ip_mask) ≠ (rule.dst_ip &&& rule.dst_ip_mask) then none
  else if (rule.src_port_min ≠ 0 ∨ rule.src_port_max ≠ 0) ∧
      (flow.src_port < rule.src_port_min ∨ flow.src_port > rule.src_port_max) then none
  else if (rule.dst_port_min ≠ 0 ∨ rule.dst_port_max ≠ 0) ∧
      (flow.dst_port < rule.dst_port_min ∨ flow.dst_port > rule.dst_port_max) then none
  else some rule.class_id

/-- The loop `for (i = 0; i < 16; i++)` of `classify_packet`, started at slot
`i` with `n` iterations left. -/
def classify_loop (rules : Nat → Option class_rule) (flow : flow_tuple) : Nat → Nat → Nat
  | _, 0 => TC_DEFAULT
  | i, n + 1 =>
    match rules i with
    | none => classify_loop rules flow (i + 1) n
    | some rule =>
      match classify_rule rule flow with
      | none => classify_loop rules flow (i + 1) n
      | some c => c

/-- The function `classify_packet`: scan slots `0 .. 15` of the `class_rules` map. -/
def classify_packet (rules : Nat → Option class_rule) (flow : flow_tuple) : Nat :=
  classify_loop rules flow 0 RULE_SCAN

/-- The match condition of a rule as the specification words it: every
populated field agrees with the packet, a zero protocol, a zero mask and a port
range with `min = max = 0` being a don't-care. -/
def rule_matches_spec (rule : class_rule) (flow : flow_tuple) : Prop :=
  (rule.protocol = 0 ∨ rule.protocol = flow.protocol) ∧
  (rule.src_ip_mask = 0 ∨
    (flow.src_ip &&& rule.src_ip_mask) = (rule.src_ip &&& rule.src_ip_mask)) ∧
  (rule.dst_ip_mask = 0 ∨
    (flow.dst_ip &&& rule.dst_ip_mask) = (rule.dst_ip &&& rule.dst_ip_mask)) ∧
  ((rule.src_port_min = 0 ∧ rule.src_port_max = 0) ∨
    (rule.src_port_min ≤ flow.src_port ∧ flow.src_port ≤ rule.src_port_max)) ∧
  ((rule.dst_port_min = 0 ∧ rule.dst_port_max = 0) ∨
    (rule.dst_port_min ≤ flow.dst_port ∧ flow.dst_port ≤ rule.dst_port_max))

instance (rule : class_rule) (flow : flow_tuple) : Decidable (rule_matches_spec rule flow) := by
  unfold rule_matches_spec
  infer_instance

/-- Slot `i` of the table holds a rule that matches the flow. -/
def slot_matches (rules : Nat → Option class_rule) (flow : flow_tuple) (i : Nat) : Prop :=
  ∃ rule, rules i = some rule ∧ rule_matches_spec rule flow

/-! ## Token bucket (`update_token_bucket`) -/

/-- The refill part of `update_token_bucket` (the statements between the
`time_delta_ns == 0` test and the admission test), for a non-zero
`time_delta_ns`: the 64-bit product `rate * time_delta_ns` divided by
`NSEC_PER_SEC`, added to the 32-bit `tokens` field, clamped to `capacity`, and
`last_update = now`. -/
def refill (tb : token_bucket) (now : Nat) : token_bucket :=
  let time_delta_ns := (now + 2 ^ 64 - tb.last_update) % 2 ^ 64
  let new_tokens := (tb.rate * time_delta_ns) % 2 ^ 64 / NSEC_PER_SEC
  let tokens := (tb.tokens + new_tokens) % 2 ^ 32
  let tokens := if tokens > tb.capacity then tb.capacity else tokens
  { tb with tokens := tokens, last_update := now }

/-- The function `update_token_bucket`: the returned number is the C return
value (`1` packet allowed, `0` packet dropped), the returned bucket is `*tb`
after the call. -/
def update_token_bucket (tb : token_bucket) (packet_len : Nat) (now : Nat) :
    Nat × token_bucket :=
  let time_delta_ns := (now + 2 ^ 64 - tb.last_update) % 2 ^ 64
  if time_delta_ns = 0 then (0, tb)
  else
    let tb1 := refill tb now
    if tb1.tokens ≥ packet_len then
      (1, { tb1 with tokens := (tb1.tokens + 2 ^ 32 - packet_len) % 2 ^ 32 })
    else (0, tb1)

/-- A sequence of `update_token_bucket` calls on one bucket, each call given as
`(packet_len, now)`; the result lists the return values and ends in the final
bucket. -/
def run_bucket (tb : token_bucket) : List (Nat × Nat) → List Nat × token_bucket
  | [] => ([], tb)
  | (len, now) :: rest =>
    let r := update_token_bucket tb len now
    let rs := run_bucket r.2 rest
    (r.1 :: rs.1, rs.2)

/-- The buckets visited by a sequence of `update_token_bucket` calls: the
bucket after the first call, after the second, and so on. -/
def bucket_trace (tb : token_bucket) : List (Nat × Nat) → List token_bucket
  | [] => []
  | (len, now) :: rest =>
    let r := update_token_bucket tb len now
    r.2 :: bucket_trace r.2 rest

/-! ## Header parsing (`parse_ethhdr`, `parse_ipv4`, `parse_tcp`, `parse_udp`) -/

/-- A packet buffer: the bytes from `data` up to `data_end`. -/
abbrev Packet := List (Fin 256)

/-- The byte at offset `off` of the buffer. -/
def byte_at (data : Packet) (off : Nat) : Nat := (data.getD off 0).val

/-- A 16-bit field read in network byte order (`bpf_ntohs` of the loaded field). -/
def be16_at (data : Packet) (off : Nat) : Nat :=
  byte_at data off * 256 + byte_at data (off + 1)

/-- A 32-bit field as the program loads it (no byte swap, little-endian target). -/
def raw32_at (data : Packet) (off : Nat) : Nat :=
  byte_at data off + byte_at data (off + 1) * 2 ^ 8 +
    byte_at data (off + 2) * 2 ^ 16 + byte_at data (off + 3) * 2 ^ 24

/-- The all-zero tuple of `struct flow_tuple flow = {}`. -/
def flow_zero : flow_tuple :=
  { src_ip := 0, dst_ip := 0, src_port := 0, dst_port := 0, protocol := 0,
    padding := [0, 0, 0] }

/-- The function `parse_ethhdr`: `-1` when the 14-byte header does not fit,
otherwise the EtherType. -/
def parse_ethhdr (data : Packet) : Int :=
  if 14 > data.length then -1 else (be16_at data 12 : Nat)

/-- The function `parse_ipv4` on the header at offset `off`: `-1` when the
20-byte header does not fit or the fragment offset is non-zero, otherwise the
IP protocol; the flow receives addresses and protocol. -/
def parse_ipv4 (data : Packet) (off : Nat) (flow : flow_tuple) : Int × flow_tuple :=
  if off + 20 > data.length then (-1, flow)
  else if be16_at data (off + 6) &&& 0x1FFF ≠ 0 then (-1, flow)
  else
    ((byte_at data (off + 9) : Nat),
      { flow with src_ip := raw32_at data (off + 12), dst_ip := raw32_at data (off + 16),
                  protocol := byte_at data (off + 9) })

/-- The function `parse_tcp` on the 20-byte header at offset `off`. -/
def parse_tcp (data : Packet) (off : Nat) (flow : flow_tuple) : Int × flow_tuple :=
  if off + 20 > data.length then (-1, flow)
  else (0, { flow with src_port := be16_at data off, dst_port := be16_at data (off + 2) })

/-- The function `parse_udp` on the 8-byte header at offset `off`. -/
def parse_udp (data : Packet) (off : Nat) (flow : flow_tuple) : Int × flow_tuple :=
  if off + 8 > data.length then (-1, flow)
  else (0, { flow with src_port := be16_at data off, dst_port := be16_at data (off + 2) })

/-- The parsing steps of `xdp_packet_classifier` (from "Parse Ethernet header"
to the end of "Parse transport layer"): `none` when the program jumps to
`pass`, otherwise the flow key. -/
def parse_flow (data : Packet) : Option flow_tuple :=
  let eth_type := parse_ethhdr data
  if eth_type < 0 then none
  else if eth_type ≠ (ETH_P_IP : Nat) then none
  else
    let r := parse_ipv4 data 14 flow_zero
    let ip_proto := r.1
    let flow := r.2
    if ip_proto < 0 then none
    else
      let l4_hdr := 14 + (byte_at data 14 % 16) * 4
      if ip_proto = (IPPROTO_TCP : Nat) then
        let t := parse_tcp data l4_hdr flow
        if t.1 < 0 then none else some t.2
      else if ip_proto = (IPPROTO_UDP : Nat) then
        let u := parse_udp data l4_hdr flow
        if u.1 < 0 then none else some u.2
      else if ip_proto = (IPPROTO_ICMP : Nat) then
        some { flow with src_port := 0, dst_port := 0 }
      else
        some { flow with src_port := 0, dst_port := 0 }

/-! ## The ingress program (`xdp_packet_classifier`) -/

/-- The record `new_flow` that the program stores for a flow without a record. -/
def new_flow (pkt_bytes : Nat) (now : Nat) (class_id : Nat) : flow_state :=
  { packet_count := 1, byte_count := pkt_bytes, last_seen := now, class_id := class_id,
    queue_id := 0, tokens := 0, last_token_update := now % 2 ^ 32, priority := 0,
    weight := 1, deficit := 0 }

/-- The "Lookup or create flow state" step: a new record for an unknown key,
otherwise the counters, `last_seen` and `class_id` of the existing record. -/
def track_flow (table : flow_tuple → Option flow_state) (flow : flow_tuple)
    (pkt_bytes : Nat) (now : Nat) (class_id : Nat) : flow_tuple → Option flow_state :=
  match table flow with
  | none => map_update table flow (new_flow pkt_bytes now class_id)
  | some flow_st =>
    map_update table flow
      { flow_st with packet_count := (flow_st.packet_count + 1) % 2 ^ 64,
                     byte_count := (flow_st.byte_count + pkt_bytes) % 2 ^ 64,
                     last_seen := now, class_id := class_id }

/-- The label `pass:` of the program: count the outcome and return `XDP_PASS`. -/
def xdp_pass_exit (m : xdp_maps) : Nat × xdp_maps :=
  (XDP_PASS,
    { m with
      cpu_stats := m.cpu_stats.map (fun s => { s with xdp_pass := (s.xdp_pass + 1) % 2 ^ 64 }) })

/-- The tail of the program after the rate limiter ("Update queue statistics"
up to `return XDP_PASS`). -/
def xdp_enqueue_exit (m : xdp_maps) (class_id : Nat) (pkt_bytes : Nat) : Nat × xdp_maps :=
  let m1 :=
    match m.queue_stats class_id with
    | none => m
    | some q =>
      { m with
        queue_stats := map_update m.queue_stats class_id
          { q with enqueued_packets := (q.enqueued_packets + 1) % 2 ^ 64,
                   enqueued_bytes := (q.enqueued_bytes + pkt_bytes) % 2 ^ 64 } }
  (XDP_PASS,
    { m1 with
      cpu_stats := m1.cpu_stats.map (fun s => { s with xdp_pass := (s.xdp_pass + 1) % 2 ^ 64 }) })

/-- The program `xdp_packet_classifier` on the packet `data` at time `now`
(the value of `bpf_ktime_get_ns`): the returned number is the XDP action, the
returned maps are the maps after the run. -/
def xdp_packet_classifier (m : xdp_maps) (data : Packet) (now : Nat) : Nat × xdp_maps :=
  let pkt_bytes := data.length
  let m1 : xdp_maps :=
    { m with
      cpu_stats := m.cpu_stats.map
        (fun s => { s with total_packets := (s.total_packets + 1) % 2 ^ 64 }) }
  match parse_flow data with
  | none => xdp_pass_exit m1
  | some flow =>
    let class_id := classify_packet m1.class_rules flow
    let m2 : xdp_maps :=
      { m1 with
        cpu_stats := m1.cpu_stats.map
          (fun s => { s with classified_packets := (s.classified_packets + 1) % 2 ^ 64,
                             total_bytes := (s.total_bytes + pkt_bytes) % 2 ^ 64 }) }
    let m3 : xdp_maps :=
      { m2 with flow_table := track_flow m2.flow_table flow pkt_bytes now class_id }
    match m3.class_config class_id with
    | none => xdp_pass_exit m3
    | some _ =>
      match m3.token_buckets class_id with
      | none => xdp_enqueue_exit m3 class_id pkt_bytes
      | some tb =>
        if tb.rate > 0 then
          let r := update_token_bucket tb (pkt_bytes % 2 ^ 32) now
          let m4 : xdp_maps :=
            { m3 with token_buckets := map_update m3.token_buckets class_id r.2 }
          if r.1 = 0 then
            (XDP_DROP,
              { m4 with
                cpu_stats := m4.cpu_stats.map
                  (fun s => { s with dropped_packets := (s.dropped_packets + 1) % 2 ^ 64,
                                     xdp_drop := (s.xdp_drop + 1) % 2 ^ 64 }) })
          else xdp_enqueue_exit m4 class_id pkt_bytes
        else xdp_enqueue_exit m3 class_id pkt_bytes

/-- The condition under which the ingress program drops: the packet parses to
a flow key, its class has a class config, the class has a token bucket with a
positive rate, and `update_token_bucket` returns `0`. -/
def ingress_drop_condition (m : xdp_maps) (data : Packet) (now : Nat) : Prop :=
  ∃ flow tb, parse_flow data = some flow ∧
    (m.class_config (classify_packet m.class_rules flow)).isSome = true ∧
    m.token_buckets (classify_packet m.class_rules flow) = some tb ∧ 0 < tb.rate ∧
    (update_token_bucket tb (data.length % 2 ^ 32) now).1 = 0

/-! ## Sample tables and packets -/

/-- A rule with every field zero, as an untouched slot of an array map holds. -/
def rule_zero : class_rule :=
  { src_ip := 0, src_ip_mask := 0, dst_ip := 0, dst_ip_mask := 0, src_port_min := 0,
    src_port_max := 0, dst_port_min := 0, dst_port_max := 0, protocol := 0, priority := 0,
    class_id := 0 }

/-- The rule of the specification scenario: UDP, destination port 5060,
class 2, priority 10. -/
def rule_voip : class_rule :=
  { rule_zero with protocol := 17, dst_port_min := 5060, dst_port_max := 5060,
                   class_id := 2, priority := 10 }

/-- A rule for TCP destination port 80, class 4, priority 5. -/
def rule_web : class_rule :=
  { rule_zero with protocol := 6, dst_port_min := 80, dst_port_max := 80,
                   class_id := 4, priority := 5 }

/-- A rule for any UDP packet, class 1, priority 1. -/
def rule_any_udp : class_rule :=
  { rule_zero with protocol := 17, class_id := 1, priority := 1 }

/-- A rule table whose 256 slots all hold the UDP 5060 rule. -/
def rules_voip_only : Nat → Option class_rule :=
  fun i => if i < 256 then some rule_voip else none

/-- A rule table with the web rule in slot 0 and the UDP 5060 rule in slot 1. -/
def rules_web_voip : Nat → Option class_rule :=
  fun i => if i = 0 then some rule_web else if i = 1 then some rule_voip
    else if i < 256 then some rule_zero else none

/-- A rule table with the priority-1 rule in slot 0 and the priority-10 rule in slot 1. -/
def rules_low_first : Nat → Option class_rule :=
  fun i => if i = 0 then some rule_any_udp else if i = 1 then some rule_voip
    else if i < 256 then some rule_zero else none

/-- An Ethernet/IPv4/UDP frame from 10.0.0.1:12345 to 10.0.0.2:5060 (42 bytes). -/
def packet_udp_5060 : Packet :=
  [0, 0, 0, 0, 0, 1, 0, 0, 0, 0, 0, 2, 0x08, 0x00,
   0x45, 0, 0, 28, 0, 0, 0, 0, 64, 17, 0, 0, 10, 0, 0, 1, 10, 0, 0, 2,
   0x30, 0x39, 0x13, 0xC4, 0, 8, 0, 0]

/-- An Ethernet/IPv4/UDP frame from 10.0.0.1:12345 to 10.0.0.2:9999 (42 bytes). -/
def packet_udp_9999 : Packet :=
  [0, 0, 0, 0, 0, 1, 0, 0, 0, 0, 0, 2, 0x08, 0x00,
   0x45, 0, 0, 28, 0, 0, 0, 0, 64, 17, 0, 0, 10, 0, 0, 1, 10, 0, 0, 2,
   0x30, 0x39, 0x27, 0x0F, 0, 8, 0, 0]

/-- The flow key of `packet_udp_5060`. -/
def flow_udp_5060 : flow_tuple :=
  { src_ip := 16777226, dst_ip := 33554442, src_port := 12345, dst_port := 5060,
    protocol := 17, padding := [0, 0, 0] }

/-- The flow key of `packet_udp_9999`. -/
def flow_udp_9999 : flow_tuple :=
  { src_ip := 16777226, dst_ip := 33554442, src_port := 12345, dst_port := 9999,
    protocol := 17, padding := [0, 0, 0] }

/-- The bucket of the specification scenario as `load_config_from_json` writes
it for `rate_limit = 1000`, `burst_size = 1000`: full, `last_update = 0`. -/
def bucket_1000 : token_bucket :=
  { tokens := 1000, rate := 1000, capacity := 1000, last_update := 0 }

/-- A bucket for 125000000 bytes per second (1 Gbit/s) with a one-second burst, empty. -/
def bucket_gigabit : token_bucket :=
  { tokens := 0, rate := 125000000, capacity := 125000000, last_update := 0 }

/-- A bucket with `rate = 0`. -/
def bucket_unlimited : token_bucket :=
  { tokens := 10, rate := 0, capacity := 1000, last_update := 7 }

/-- A class config for class `id` with the given rate limit and burst size. -/
def sample_class (id rate burst : Nat) : class_config :=
  { id := id, rate_limit := rate, burst_size := burst, priority := 0, weight := 1,
    min_bandwidth := 0, max_bandwidth := 0, flags := 0 }

/-- Tables with the UDP 5060 rule in every slot, an empty flow table, a global
config whose `default_class` is 3, class configs for classes 0 to 7 and a
`rate = 0` bucket for class 2. -/
def maps_voip : xdp_maps :=
  { flow_table := fun _ => none,
    class_rules := rules_voip_only,
    class_config := fun i => if i < 8 then some (sample_class i 0 0) else none,
    cpu_stats := some { total_packets := 0, total_bytes := 0, classified_packets := 0,
                        dropped_packets := 0, xdp_pass := 0, xdp_drop := 0, xdp_tx := 0,
                        xdp_redirect := 0 },
    global_config := some { sched_algorithm := 0, default_class := 3, num_classes := 8,
                            total_rate_limit := 0, flags := 0, quantum := 1500 },
    queue_stats := fun _ => none,
    token_buckets := fun i => if i = 2 then some bucket_unlimited else none }

/-! ## The egress program (`tc_scheduler.c`) -/

/-- Macro `TC_ACT_OK`. -/
def TC_ACT_OK : Int := 0

/-- Macro `TC_ACT_SHOT`. -/
def TC_ACT_SHOT : Int := 2

/-- Macro `MAX_QUEUES_PER_CLASS`. -/
def MAX_QUEUES_PER_CLASS : Nat := 16

/-- Macro `MAX_QUEUE_DEPTH`. -/
def MAX_QUEUE_DEPTH : Nat := 1024

/-- Enumerator `SCHED_ROUND_ROBIN`. -/
def SCHED_ROUND_ROBIN : Nat := 0

/-- Enumerator `SCHED_WEIGHTED_FAIR_QUEUING`. -/
def SCHED_WEIGHTED_FAIR_QUEUING : Nat := 1

/-- Enumerator `SCHED_STRICT_PRIORITY`. -/
def SCHED_STRICT_PRIORITY : Nat := 2

/-- Enumerator `SCHED_DEFICIT_ROUND_ROBIN`. -/
def SCHED_DEFICIT_ROUND_ROBIN : Nat := 3

/-- Enumerator `SCHED_PIFO`. -/
def SCHED_PIFO : Nat := 4

/-- The PIFO entry `struct pifo_entry`. -/
structure pifo_entry where
  rank : Nat
  enqueue_time : Nat
  packet_len : Nat
  flow_hash : Nat
  flow : flow_tuple
  deriving DecidableEq, Repr

/-- The PIFO metadata `struct pifo_meta`. -/
structure pifo_meta where
  head : Nat
  tail : Nat
  size : Nat
  deriving DecidableEq, Repr

/-- The fields of `struct __sk_buff` that the program uses: `len`, `priority`
and the bytes from `data` up to `data_end`. -/
structure sk_buff where
  len : Nat
  priority : Nat
  data : Packet
  deriving DecidableEq, Repr

/-- The BPF maps declared in `tc_scheduler.c`, the function-static variable
`last_low_prio_service` of `schedule_strict_priority`, and the value of
`gcfg->starvation_threshold`: the program reads that field, but no declaration
of `struct global_config` in the repository has it, so it is carried beside
the global config. -/
structure tc_maps where
  flow_table : flow_tuple → Option flow_state
  class_config : Nat → Option class_config
  global_config : Option global_config
  queue_stats : Nat → Option queue_stats
  rr_state : Nat → Option Nat
  drr_deficit : flow_tuple → Option Nat
  pifo_queue : Nat → Option pifo_entry
  pifo_metadata : Nat → Option pifo_meta
  wfq_vtime : Nat → Option Nat
  last_low_prio_service : Nat
  starvation_threshold : Nat

/-- The function `extract_flow_tuple`: `-1` on a packet it does not parse,
otherwise `0`; the flow receives addresses, protocol and ports. -/
def extract_flow_tuple (skb : sk_buff) (flow : flow_tuple) : Int × flow_tuple :=
  let data := skb.data
  if 14 > data.length then (-1, flow)
  else if be16_at data 12 ≠ ETH_P_IP then (-1, flow)
  else if 14 + 20 > data.length then (-1, flow)
  else
    let flow1 : flow_tuple :=
      { flow with src_ip := raw32_at data (14 + 12), dst_ip := raw32_at data (14 + 16),
                  protocol := byte_at data (14 + 9) }
    let l4 := 14 + (byte_at data 14 % 16) * 4
    if byte_at data (14 + 9) = IPPROTO_TCP then
      if l4 + 20 > data.length then (-1, flow1)
      else (0, { flow1 with src_port := be16_at data l4, dst_port := be16_at data (l4 + 2) })
    else if byte_at data (14 + 9) = IPPROTO_UDP then
      if l4 + 8 > data.length then (-1, flow1)
      else (0, { flow1 with src_port := be16_at data l4, dst_port := be16_at data (l4 + 2) })
    else (0, { flow1 with src_port := 0, dst_port := 0 })

/-- The function `schedule_round_robin`: return value, `*flow_st` and the
`rr_state` map after the call. -/
def schedule_round_robin (rr_state : Nat → Option Nat) (flow_st : flow_state)
    (class_id : Nat) : Int × flow_state × (Nat → Option Nat) :=
  match rr_state class_id with
  | none => (TC_ACT_OK, flow_st, rr_state)
  | some rr_idx =>
    (TC_ACT_OK, { flow_st with queue_id := rr_idx },
      map_update rr_state class_id (((rr_idx + 1) % 2 ^ 32) % MAX_QUEUES_PER_CLASS))

/-- The function `schedule_wfq`: return value, `*flow_st` and the `wfq_vtime`
map after the call; `pkt_len` is `skb->len`.  The divisor is the weight of the
flow record (`cfg` is not read). -/
def schedule_wfq (wfq_vtime : Nat → Option Nat) (pkt_len : Nat) (flow_st : flow_state)
    (class_id : Nat) : Int × flow_state × (Nat → Option Nat) :=
  match wfq_vtime class_id with
  | none => (TC_ACT_OK, flow_st, wfq_vtime)
  | some vtime =>
    let vft := (vtime + pkt_len / (if flow_st.weight ≠ 0 then flow_st.weight else 1)) % 2 ^ 64
    (TC_ACT_OK, { flow_st with queue_id := vft % MAX_QUEUES_PER_CLASS },
      map_update wfq_vtime class_id vft)

/-- The function `schedule_strict_priority`: return value, `*flow_st` and the
static `last_low_prio_service` after the call.  `starvation_threshold` is the
value of `gcfg->starvation_threshold`, `now` the value of `bpf_ktime_get_ns`. -/
def schedule_strict_priority (starvation_threshold : Nat) (last_low_prio_service : Nat)
    (now : Nat) (flow_st : flow_state) (cfg : class_config) : Int × flow_state × Nat :=
  let flow_st1 : flow_state :=
    { flow_st with
      queue_id := if cfg.priority < MAX_QUEUES_PER_CLASS then cfg.priority else 0 }
  if starvation_threshold > 0 then
    let threshold_ns := (starvation_threshold * 1000000) % 2 ^ 64
    if cfg.priority > 2 ∧ (now + 2 ^ 64 - last_low_prio_service) % 2 ^ 64 > threshold_ns then
      (TC_ACT_OK, { flow_st1 with queue_id := 0 }, now)
    else (TC_ACT_OK, flow_st1, last_low_prio_service)
  else (TC_ACT_OK, flow_st1, last_low_prio_service)

/-- The function `schedule_drr`: return value, `*flow_st` and the `drr_deficit`
map after the call; `pkt_len` is `skb->len`.  For a flow without an entry the
quantum is stored in the map and `deficit` then points at the local
`new_deficit`, so the later writes through `deficit` do not reach the map. -/
def schedule_drr (drr_deficit : flow_tuple → Option Nat) (pkt_len : Nat) (flow : flow_tuple)
    (flow_st : flow_state) (gcfg : global_config) :
    Int × flow_state × (flow_tuple → Option Nat) :=
  let quantum := if gcfg.quantum ≠ 0 then gcfg.quantum else 1500
  match drr_deficit flow with
  | none =>
    let map1 := map_update drr_deficit flow quantum
    let d := (quantum + quantum) % 2 ^ 32
    if d ≥ pkt_len then
      (TC_ACT_OK, { flow_st with deficit := (d + 2 ^ 32 - pkt_len) % 2 ^ 32 }, map1)
    else (TC_ACT_SHOT, flow_st, map1)
  | some deficit =>
    let d := (deficit + quantum) % 2 ^ 32
    if d ≥ pkt_len then
      (TC_ACT_OK, { flow_st with deficit := (d + 2 ^ 32 - pkt_len) % 2 ^ 32 },
        map_update drr_deficit flow ((d + 2 ^ 32 - pkt_len) % 2 ^ 32))
    else (TC_ACT_SHOT, flow_st, map_update drr_deficit flow d)

/-- The function `schedule_pifo`: return value, the `pifo_queue` map and the
`pifo_metadata` map after the call; `pkt_len` is `skb->len`, `now` the value of
`bpf_ktime_get_ns`.  The map `pifo_queue` is declared as an array of
`MAX_QUEUE_DEPTH` entries and the return value of its update is not checked. -/
def schedule_pifo (pifo_queue : Nat → Option pifo_entry)
    (pifo_metadata : Nat → Option pifo_meta) (pkt_len : Nat) (now : Nat) (flow : flow_tuple)
    (flow_st : flow_state) (class_id : Nat) :
    Int × (Nat → Option pifo_entry) × (Nat → Option pifo_meta) :=
  match pifo_metadata class_id with
  | none => (TC_ACT_SHOT, pifo_queue, pifo_metadata)
  | some meta =>
    if meta.size ≥ MAX_QUEUE_DEPTH then (TC_ACT_SHOT, pifo_queue, pifo_metadata)
    else
      let rank := ((flow_st.priority * 2 ^ 48) % 2 ^ 64) ||| (now &&& 0xFFFFFFFFFFFF)
      let entry : pifo_entry :=
        { rank := rank, enqueue_time := now, packet_len := pkt_len,
          flow_hash := flow.src_ip ^^^ flow.dst_ip, flow := flow }
      let insert_idx := meta.tail
      (TC_ACT_OK, array_update MAX_QUEUE_DEPTH pifo_queue insert_idx entry,
        map_update pifo_metadata class_id
          { meta with tail := ((meta.tail + 1) % 2 ^ 32) % MAX_QUEUE_DEPTH,
                      size := (meta.size + 1) % 2 ^ 32 })

/-- The `switch (gcfg->sched_algorithm)` of `tc_packet_scheduler`: the return
value `ret` and the maps after the selected scheduler ran on the flow record
`flow_st` found under `flow`; the record is written in place. -/
def tc_dispatch (m : tc_maps) (skb : sk_buff) (now : Nat) (flow : flow_tuple)
    (flow_st : flow_state) (cfg : class_config) (gcfg : global_config) : Int × tc_maps :=
  let class_id := flow_st.class_id
  if gcfg.sched_algorithm = SCHED_ROUND_ROBIN then
    let r := schedule_round_robin m.rr_state flow_st class_id
    (r.1, { m with flow_table := map_update m.flow_table flow r.2.1, rr_state := r.2.2 })
  else if gcfg.sched_algorithm = SCHED_WEIGHTED_FAIR_QUEUING then
    let r := schedule_wfq m.wfq_vtime skb.len flow_st class_id
    (r.1, { m with flow_table := map_update m.flow_table flow r.2.1, wfq_vtime := r.2.2 })
  else if gcfg.sched_algorithm = SCHED_STRICT_PRIORITY then
    let r := schedule_strict_priority m.starvation_threshold m.last_low_prio_service now
      flow_st cfg
    (r.1, { m with flow_table := map_update m.flow_table flow r.2.1,
                   last_low_prio_service := r.2.2 })
  else if gcfg.sched_algorithm = SCHED_DEFICIT_ROUND_ROBIN then
    let r := schedule_drr m.drr_deficit skb.len flow flow_st gcfg
    (r.1, { m with flow_table := map_update m.flow_table flow r.2.1, drr_deficit := r.2.2 })
  else if gcfg.sched_algorithm = SCHED_PIFO then
    let r := schedule_pifo m.pifo_queue m.pifo_metadata skb.len now flow flow_st class_id
    (r.1, { m with pifo_queue := r.2.1, pifo_metadata := r.2.2 })
  else (TC_ACT_OK, m)

/-- The "Update queue statistics" step of `tc_packet_scheduler`. -/
def tc_update_stats (stats : Nat → Option queue_stats) (class_id : Nat) (ret : Int)
    (pkt_len : Nat) : Nat → Option queue_stats :=
  match stats class_id with
  | none => stats
  | some q =>
    if ret = TC_ACT_OK then
      map_update stats class_id
        { q with dequeued_packets := (q.dequeued_packets + 1) % 2 ^ 64,
                 dequeued_bytes := (q.dequeued_bytes + pkt_len) % 2 ^ 64 }
    else if ret = TC_ACT_SHOT then
      map_update stats class_id
        { q with dropped_packets := (q.dropped_packets + 1) % 2 ^ 64,
                 dropped_bytes := (q.dropped_bytes + pkt_len) % 2 ^ 64 }
    else stats

/-- The program `tc_packet_scheduler` on the packet `skb` at time `now`: the
returned number is the TC action, then `*skb` and the maps after the run. -/
def tc_packet_scheduler (m : tc_maps) (skb : sk_buff) (now : Nat) : Int × sk_buff × tc_maps :=
  let e := extract_flow_tuple skb flow_zero
  if e.1 < 0 then (TC_ACT_OK, skb, m)
  else
    let flow := e.2
    match m.flow_table flow with
    | none => (TC_ACT_OK, skb, m)
    | some flow_st =>
      let class_id := flow_st.class_id
      match m.class_config class_id with
      | none => (TC_ACT_OK, skb, m)
      | some cfg =>
        match m.global_config with
        | none => (TC_ACT_OK, skb, m)
        | some gcfg =>
          let r := tc_dispatch m skb now flow flow_st cfg gcfg
          let m1 := r.2
          (r.1, { skb with priority := cfg.priority },
            { m1 with queue_stats := tc_update_stats m1.queue_stats class_id r.1 skb.len })

/-! ## Call sequences and sample tables for the egress program -/

/-- Consecutive `schedule_round_robin` calls for one class, one call per listed
flow record: the queue ids assigned, in call order, and the `rr_state` map
after the last call. -/
def rr_run (rr_state : Nat → Option Nat) (class_id : Nat) :
    List flow_state → List Nat × (Nat → Option Nat)
  | [] => ([], rr_state)
  | flow_st :: rest =>
    let r := schedule_round_robin rr_state flow_st class_id
    let rs := rr_run r.2.2 class_id rest
    (r.2.1.queue_id :: rs.1, rs.2)

/-- Consecutive `schedule_wfq` calls for one class, one call per listed pair
(packet length, flow record): the class's `wfq_vtime` entry after each call. -/
def wfq_run (wfq_vtime : Nat → Option Nat) (class_id : Nat) :
    List (Nat × flow_state) → List (Option Nat)
  | [] => []
  | (pkt_len, flow_st) :: rest =>
    let r := schedule_wfq wfq_vtime pkt_len flow_st class_id
    r.2.2 class_id :: wfq_run r.2.2 class_id rest

/-- Consecutive `schedule_drr` calls for one flow with packets of one length,
one call per listed flow record: the return values, in call order, and the
`drr_deficit` map after the last call. -/
def drr_run (drr_deficit : flow_tuple → Option Nat) (pkt_len : Nat) (flow : flow_tuple)
    (gcfg : global_config) : List flow_state → List Int × (flow_tuple → Option Nat)
  | [] => ([], drr_deficit)
  | flow_st :: rest =>
    let r := schedule_drr drr_deficit pkt_len flow flow_st gcfg
    let rs := drr_run r.2.2 pkt_len flow gcfg rest
    (r.1 :: rs.1, rs.2)

/-- The record of the UDP 5060 flow as the ingress program creates it for a
42-byte packet of class 2 at time 7. -/
def record_class2 : flow_state := new_flow 42 7 2

/-- The ingress tables of `maps_voip` with a record of the UDP 5060 flow whose
`packet_count` is `2^64 - 1`. -/
def maps_counter_max : xdp_maps :=
  { maps_voip with
    flow_table := fun k =>
      if k = flow_udp_5060 then some { record_class2 with packet_count := 2 ^ 64 - 1 }
      else none }

/-- A global config selecting the discipline `alg`, quantum 1500. -/
def sample_global (alg : Nat) : global_config :=
  { sched_algorithm := alg, default_class := 7, num_classes := 8, total_rate_limit := 0,
    flags := 0, quantum := 1500 }

/-- Queue statistics with every counter zero. -/
def stats_zero : queue_stats :=
  { enqueued_packets := 0, enqueued_bytes := 0, dequeued_packets := 0, dequeued_bytes := 0,
    dropped_packets := 0, dropped_bytes := 0, current_qlen := 0, max_qlen := 0,
    total_latency_ns := 0 }

/-- Egress tables with the discipline `alg` selected, the record of the UDP
5060 flow (class 2), class configs and queue statistics for classes 0 to 7, and
no scheduler auxiliary state at all. -/
def maps_tc_no_aux (alg : Nat) : tc_maps :=
  { flow_table := fun k => if k = flow_udp_5060 then some record_class2 else none,
    class_config := fun i => if i < 8 then some (sample_class i 0 0) else none,
    global_config := some (sample_global alg),
    queue_stats := fun i => if i < 8 then some stats_zero else none,
    rr_state := fun _ => none,
    drr_deficit := fun _ => none,
    pifo_queue := fun _ => none,
    pifo_metadata := fun _ => none,
    wfq_vtime := fun _ => none,
    last_low_prio_service := 0,
    starvation_threshold := 0 }

/-- Egress tables as `maps_tc_no_aux` but with an empty flow table. -/
def maps_tc_no_flows (alg : Nat) : tc_maps :=
  { maps_tc_no_aux alg with flow_table := fun _ => none }

/-- The socket buffer holding `packet_udp_5060`. -/
def skb_udp_5060 : sk_buff := { len := 42, priority := 0, data := packet_udp_5060 }

/-- The quantum that `schedule_drr` uses: the configured one, 1500 when it is zero. -/
def drr_quantum (gcfg : global_config) : Nat :=
  if gcfg.quantum ≠ 0 then gcfg.quantum else 1500

/-- The ingress tables of `maps_voip` with the record of the UDP 5060 flow. -/
def maps_voip_tracked : xdp_maps :=
  { maps_voip with
    flow_table := fun k => if k = flow_udp_5060 then some record_class2 else none }

/-! ## PIFO rank and insertion sequences -/

/-- The rank expression of `schedule_pifo`,
`((__u64)priority << 48) | (now & 0xFFFFFFFFFFFF)`. -/
def pifo_rank (priority : Nat) (now : Nat) : Nat :=
  ((priority * 2 ^ 48) % 2 ^ 64) ||| (now &&& 0xFFFFFFFFFFFF)

/-- Consecutive `schedule_pifo` calls for one class, one call per listed triple
(flow record, packet length, time): the return values, in call order, and the
`pifo_queue` and `pifo_metadata` maps after the last call. -/
def pifo_run (pifo_queue : Nat → Option pifo_entry) (pifo_metadata : Nat → Option pifo_meta)
    (flow : flow_tuple) (class_id : Nat) :
    List (flow_state × Nat × Nat) →
      List Int × (Nat → Option pifo_entry) × (Nat → Option pifo_meta)
  | [] => ([], pifo_queue, pifo_metadata)
  | (flow_st, pkt_len, now) :: rest =>
    let r := schedule_pifo pifo_queue pifo_metadata pkt_len now flow flow_st class_id
    let rs := pifo_run r.2.1 r.2.2 flow class_id rest
    (r.1 :: rs.1, rs.2)

/-- The ranks stored in the buffer slots `head, head + 1, ..., head + n - 1`
(modulo `MAX_QUEUE_DEPTH`), in that order; an empty slot is skipped. -/
def pifo_ranks (pifo_queue : Nat → Option pifo_entry) (head : Nat) (n : Nat) : List Nat :=
  (List.range n).filterMap
    (fun k => (pifo_queue ((head + k) % MAX_QUEUE_DEPTH)).map (fun e => e.rank))

/-! ## The control plane (`load_config_from_json`) -/

/-- Macro `MAX_RULES`. -/
def MAX_RULES : Nat := 256

/-- One element of the JSON array `rules` as `load_config_from_json` reads it:
a key that is absent is `none`; `protocol` is the result of
`json_object_get_string`, the other fields are results of `json_object_get_int`. -/
structure json_rule where
  protocol : Option String
  dst_port_min : Option Int
  dst_port_max : Option Int
  class_id : Option Int
  priority : Option Int

/-- The body of the rules loop of `load_config_from_json`: the
`struct class_rule` that is written to the `class_rules` map for one JSON rule.
The rule starts as `{0}`; each key that is present sets its field, an `int`
assigned to a `__u16` or `__u8` field being reduced modulo `2^16` or `2^8`;
last, a zero `dst_port_max` beside a positive `dst_port_min` takes its value. -/
def load_rule_from_json (j : json_rule) : class_rule :=
  let protocol : Nat :=
    match j.protocol with
    | none => 0
    | some proto =>
      if proto = "tcp" then IPPROTO_TCP
      else if proto = "udp" then IPPROTO_UDP
      else if proto = "icmp" then IPPROTO_ICMP
      else 0
  let dst_port_min : Nat :=
    match j.dst_port_min with
    | none => 0
    | some v => (v % 65536).toNat
  let dst_port_max : Nat :=
    match j.dst_port_max with
    | none => 0
    | some v => (v % 65536).toNat
  let class_id : Nat :=
    match j.class_id with
    | none => 0
    | some v => (v % 65536).toNat
  let priority : Nat :=
    match j.priority with
    | none => 0
    | some v => (v % 256).toNat
  { src_ip := 0, src_ip_mask := 0, dst_ip := 0, dst_ip_mask := 0, src_port_min := 0,
    src_port_max := 0, dst_port_min := dst_port_min,
    dst_port_max :=
      if dst_port_max = 0 ∧ dst_port_min > 0 then dst_port_min else dst_port_max,
    protocol := protocol, priority := priority, class_id := class_id }

/-- The ingress program run on a sequence of packets, each given with its
arrival time: the actions, in order, and the maps after the last packet. -/
def xdp_run (m : xdp_maps) : List (Packet × Nat) → List Nat × xdp_maps
  | [] => ([], m)
  | (data, now) :: rest =>
    let r := xdp_packet_classifier m data now
    let rs := xdp_run r.2 rest
    (r.1 :: rs.1, rs.2)

/-- A PIFO metadata map in which every class has an empty queue. -/
def pifo_meta_empty : Nat → Option pifo_meta :=
  fun i => if i < 8 then some { head := 0, tail := 0, size := 0 } else none

/-- The PIFO maps after one insertion for class 1 (flow to port 9999) into
empty queues. -/
def pifo_class1_inserted : Int × (Nat → Option pifo_entry) × (Nat → Option pifo_meta) :=
  schedule_pifo (fun _ => none) pifo_meta_empty 42 100 flow_udp_9999
    { record_class2 with class_id := 1 } 1

/-- The PIFO maps after a following insertion for class 2 (flow to port 5060). -/
def pifo_class2_inserted : Int × (Nat → Option pifo_entry) × (Nat → Option pifo_meta) :=
  schedule_pifo pifo_class1_inserted.2.1 pifo_class1_inserted.2.2 42 200 flow_udp_5060
    record_class2 2

/-- A rule table that agrees with `rules_voip_only` on slots 0 to 15 and holds
the all-zero rule in every later slot. -/
def rules_voip_then_zero : Nat → Option class_rule :=
  fun i => if i < 16 then some rule_voip else if i < 256 then some rule_zero else none

/-- A JSON rule that sets only `protocol`, `dst_port_min`, `class_id` and `priority`. -/
def json_rule_voip : json_rule :=
  { protocol := some "udp", dst_port_min := some 5060, dst_port_max := none,
    class_id := some 2, priority := some 10 }

/-! ## Ingress and egress on shared tables -/

/-- The state of the whole packet path: the maps of the ingress program, which
hold the flow table, the class configs, the global config and the queue
statistics that the egress program declares as "External maps from XDP
program", and the maps of the egress program for everything else. -/
structure sched_state where
  x : xdp_maps
  t : tc_maps

/-- The maps the egress program works on: its own maps with the four shared
maps taken from the ingress side. -/
def shared_view (s : sched_state) : tc_maps :=
  { s.t with
    flow_table := s.x.flow_table,
    class_config := s.x.class_config,
    global_config := s.x.global_config,
    queue_stats := s.x.queue_stats }

/-- One packet handled by one of the two programs. -/
inductive packet_event where
  | ingress (data : Packet) (now : Nat)
  | egress (skb : sk_buff) (now : Nat)

/-- One step of the packet path: `xdp_packet_classifier` for an ingress packet,
`tc_packet_scheduler` on the shared view for an egress packet, whose writes to
the flow table and to the queue statistics land in the shared maps. -/
def sched_step (s : sched_state) : packet_event → sched_state
  | packet_event.ingress data now =>
    { x := (xdp_packet_classifier s.x data now).2, t := s.t }
  | packet_event.egress skb now =>
    let r := tc_packet_scheduler (shared_view s) skb now
    { x := { s.x with flow_table := r.2.2.flow_table, queue_stats := r.2.2.queue_stats },
      t := r.2.2 }

/-- The packet path run on a sequence of events, first event first. -/
def sched_run (s : sched_state) : List packet_event → sched_state
  | [] => s
  | e :: rest => sched_run (sched_step s e) rest

/-- Every record of a flow table has `weight = 1` and `priority = 0`. -/
def records_default (table : flow_tuple → Option flow_state) : Prop :=
  ∀ k st, table k = some st → st.weight = 1 ∧ st.priority = 0

/-- The relations among the per-CPU counters after `n` ingress packets. -/
def cpu_counters_consistent (s : cpu_stats) (n : Nat) : Prop :=
  s.total_packets = n ∧ s.total_packets = s.xdp_pass + s.xdp_drop ∧
  s.dropped_packets = s.xdp_drop ∧ s.classified_packets ≤ s.total_packets ∧
  s.xdp_tx = 0 ∧ s.xdp_redirect = 0

/-! ## Sample data for statistics, refill and the packet path -/

/-- Per-CPU counters that are all zero. -/
def cpu_zero : cpu_stats :=
  { total_packets := 0, total_bytes := 0, classified_packets := 0, dropped_packets := 0,
    xdp_pass := 0, xdp_drop := 0, xdp_tx := 0, xdp_redirect := 0 }

/-- Egress tables as `maps_tc_no_aux` with round robin selected, a cursor for
every class, and queue statistics of class 2 whose `dequeued_packets` is
`2^64 - 1`. -/
def maps_tc_stats_max : tc_maps :=
  { maps_tc_no_aux 0 with
    rr_state := fun _ => some 0,
    queue_stats := fun i =>
      if i = 2 then some { stats_zero with dequeued_packets := 2 ^ 64 - 1 }
      else if i < 8 then some stats_zero else none }

/-- Egress tables as `maps_tc_no_aux` with round robin selected and a cursor
for every class. -/
def maps_tc_rr : tc_maps :=
  { maps_tc_no_aux 0 with rr_state := fun _ => some 0 }

/-- A packet path state with an empty flow table: the ingress tables of
`maps_voip` with WFQ selected in the shared global config, beside egress tables
whose virtual time is 0 for every class. -/
def sched_start : sched_state :=
  { x := { maps_voip with global_config := some (sample_global 1) },
    t := { maps_tc_no_aux 1 with wfq_vtime := fun _ => some 0 } }

/-- A packet path state with an empty flow table, WFQ selected, and a virtual
time of `2^64 - 1` for every class. -/
def sched_start_vtime_max : sched_state :=
  { x := { maps_voip with global_config := some (sample_global 1) },
    t := { maps_tc_no_aux 1 with wfq_vtime := fun _ => some (2 ^ 64 - 1) } }

/-- The first packet of the UDP 5060 flow on ingress at time 7, then the same
frame on egress at time 9. -/
def events_in_out : List packet_event :=
  [packet_event.ingress packet_udp_5060 7, packet_event.egress skb_udp_5060 9]

/-- A PIFO metadata map in which every class has 1022 stored entries. -/
def pifo_meta_nearly_full : Nat → Option pifo_meta :=
  fun _ => some { head := 0, tail := 1022, size := 1022 }

/-! ## Array-shaped tables, refill totals and configuration re-submission -/

/-- A rule that matches in the sense of the specification makes the loop body return its class. -/
theorem classify_rule_of_matches (rule : class_rule) (flow : flow_tuple)
    (h : rule_matches_spec rule flow) : classify_rule rule flow = some rule.class_id := by
  obtain ⟨h1, h2, h3, h4, h5⟩ := h
  unfold classify_rule
  rw [if_neg (by omega), if_neg (by omega), if_neg (by omega), if_neg (by omega),
    if_neg (by omega)]

/-- A rule that does not match makes the loop body `continue`. -/
theorem classify_rule_of_not_matches (rule : class_rule) (flow : flow_tuple)
    (h : ¬ rule_matches_spec rule flow) : classify_rule rule flow = none := by
  unfold rule_matches_spec at h
  unfold classify_rule
  split_ifs <;> first | rfl | (exfalso; apply h; omega)

/-- A slot without a matching rule is skipped by the loop. -/
theorem classify_loop_skip (rules : Nat → Option class_rule) (flow : flow_tuple) (i n : Nat)
    (h : ¬ slot_matches rules flow i) :
    classify_loop rules flow i (n + 1) = classify_loop rules flow (i + 1) n := by
  rw [classify_loop]
  cases hr : rules i with
  | none => rfl
  | some rule =>
    have hm : ¬ rule_matches_spec rule flow := fun hm => h ⟨rule, hr, hm⟩
    simp [classify_rule_of_not_matches rule flow hm]

/-- The loop returns the class of the first matching slot it reaches. -/
theorem classify_loop_first (rules : Nat → Option class_rule) (flow : flow_tuple)
    (rule : class_rule) :
    ∀ (n i k : Nat), k < n → rules (i + k) = some rule → rule_matches_spec rule flow →
      (∀ j, i ≤ j → j < i + k → ¬ slot_matches rules flow j) →
      classify_loop rules flow i n = rule.class_id := by
  intro n
  induction n with
  | zero => intro i k hk; omega
  | succ n ih =>
    intro i k hk hr hm hfirst
    cases k with
    | zero =>
      rw [classify_loop]
      simp only [Nat.add_zero] at hr
      simp [hr, classify_rule_of_matches rule flow hm]
    | succ k =>
      rw [classify_loop_skip rules flow i n (hfirst i (by omega) (by omega))]
      apply ih (i + 1) k (by omega)
      · rw [← hr]; congr 1; omega
      · exact hm
      · intro j h1 h2; exact hfirst j (by omega) (by omega)

/-- The loop returns `TC_DEFAULT` when no visited slot matches. -/
theorem classify_loop_none (rules : Nat → Option class_rule) (flow : flow_tuple) :
    ∀ (n i : Nat), (∀ j, i ≤ j → j < i + n → ¬ slot_matches rules flow j) →
      classify_loop rules flow i n = TC_DEFAULT := by
  intro n
  induction n with
  | zero => intro i _; rfl
  | succ n ih =>
    intro i h
    rw [classify_loop_skip rules flow i n (h i (by omega) (by omega))]
    exact ih (i + 1) (fun j h1 h2 => h j (by omega) (by omega))

/-- Claim C1. For every rule table and flow key: if slot `i < 16` holds a rule
whose every populated field matches the flow (protocol equal, source and
destination address equal under the rule's mask, source and destination port
inside `[min, max]`, a zero protocol, zero mask or `min = max = 0` range being a
don't-care) and no lower slot holds a matching rule, then `classify_packet`
returns that rule's `class_id`. -/
theorem classify_packet_first_match (rules : Nat → Option class_rule) (flow : flow_tuple)
    (i : Nat) (rule : class_rule) (hi : i < 16) (hr : rules i = some rule)
    (hm : rule_matches_spec rule flow)
    (hfirst : ∀ j, j < i → ¬ slot_matches rules flow j) :
    classify_packet rules flow = rule.class_id := by
  unfold classify_packet RULE_SCAN
  exact classify_loop_first rules flow rule 16 0 i hi (by simpa using hr) hm
    (fun j _ h2 => hfirst j (by omega))

/-! ## Theorems: token bucket -/

/-- After the refill step the tokens do not exceed the capacity. -/
theorem refill_tokens_le_capacity (tb : token_bucket) (now : Nat) :
    (refill tb now).tokens ≤ (refill tb now).capacity := by
  simp only [refill]
  split_ifs <;> omega

/-- After the refill step the token count fits 32 bits. -/
theorem refill_tokens_lt (tb : token_bucket) (now : Nat) :
    (refill tb now).tokens < 2 ^ 32 := by
  simp only [refill]
  split_ifs with h
  · have := Nat.mod_lt (tb.tokens +
      tb.rate * ((now + 2 ^ 64 - tb.last_update) % 2 ^ 64) % 2 ^ 64 / NSEC_PER_SEC)
      (show 2 ^ 32 > 0 by norm_num)
    omega
  · exact Nat.mod_lt _ (by norm_num)

/-- A 32-bit subtraction whose subtrahend is not larger does not wrap. -/
theorem sub32_exact (t len : Nat) (ht : t < 2 ^ 32) (hl : len ≤ t) :
    (t + 2 ^ 32 - len) % 2 ^ 32 = t - len := by
  omega

/-- The three outcomes of `update_token_bucket`: unchanged timestamp, admit, reject. -/
theorem update_cases (tb : token_bucket) (len now : Nat) :
    ((now + 2 ^ 64 - tb.last_update) % 2 ^ 64 = 0 ∧ update_token_bucket tb len now = (0, tb)) ∨
    ((now + 2 ^ 64 - tb.last_update) % 2 ^ 64 ≠ 0 ∧ len ≤ (refill tb now).tokens ∧
      update_token_bucket tb len now =
        (1, { refill tb now with tokens := (refill tb now).tokens - len })) ∨
    ((now + 2 ^ 64 - tb.last_update) % 2 ^ 64 ≠ 0 ∧ (refill tb now).tokens < len ∧
      update_token_bucket tb len now = (0, refill tb now)) := by
  by_cases h0 : (now + 2 ^ 64 - tb.last_update) % 2 ^ 64 = 0
  · left
    exact ⟨h0, by simp only [update_token_bucket, if_pos h0]⟩
  · right
    by_cases hl : len ≤ (refill tb now).tokens
    · left
      refine ⟨h0, hl, ?_⟩
      simp only [update_token_bucket, if_neg h0, ge_iff_le, if_pos hl]
      rw [sub32_exact _ _ (refill_tokens_lt tb now) hl]
    · right
      refine ⟨h0, by omega, ?_⟩
      simp only [update_token_bucket, if_neg h0, ge_iff_le, if_neg hl]

/-- One call of `update_token_bucket` preserves `tokens ≤ capacity`. -/
theorem update_keeps_le (tb : token_bucket) (len now : Nat) (h : tb.tokens ≤ tb.capacity) :
    (update_token_bucket tb len now).2.tokens ≤ (update_token_bucket tb len now).2.capacity := by
  have hr := refill_tokens_le_capacity tb now
  rcases update_cases tb len now with ⟨_, e⟩ | ⟨_, _, e⟩ | ⟨_, _, e⟩
  · rw [e]; exact h
  · rw [e]; simp only; omega
  · rw [e]; exact hr

/-- Every bucket of a trace satisfies `tokens ≤ capacity`. -/
theorem bucket_trace_le (calls : List (Nat × Nat)) :
    ∀ tb : token_bucket, tb.tokens ≤ tb.capacity →
      ∀ b ∈ bucket_trace tb calls, b.tokens ≤ b.capacity := by
  induction calls with
  | nil => intro tb _ b hb; simp [bucket_trace] at hb
  | cons c rest ih =>
    intro tb h b hb
    obtain ⟨len, now⟩ := c
    simp only [bucket_trace, List.mem_cons] at hb
    rcases hb with hb | hb
    · rw [hb]; exact update_keeps_le tb len now h
    · exact ih _ (update_keeps_le tb len now h) b hb

/-- Claim C6. A bucket with `tokens ≤ capacity` keeps `tokens ≤ capacity` after
each call of any sequence of `update_token_bucket` calls (arbitrary lengths and
timestamps); and every call leaves the token count untouched, or at the
refilled count, or debits the refilled count by a length that does not exceed
it, so the unsigned subtraction never wraps. -/
theorem token_bucket_invariant (tb : token_bucket) (calls : List (Nat × Nat))
    (h : tb.tokens ≤ tb.capacity) :
    (∀ b ∈ bucket_trace tb calls, b.tokens ≤ b.capacity) ∧
    (∀ (b : token_bucket) (len now : Nat),
      (update_token_bucket b len now).2.tokens = b.tokens ∨
      (update_token_bucket b len now).2.tokens = (refill b now).tokens ∨
      (len ≤ (refill b now).tokens ∧
        (update_token_bucket b len now).2.tokens + len = (refill b now).tokens)) := by
  refine ⟨bucket_trace_le calls tb h, ?_⟩
  intro b len now
  rcases update_cases b len now with ⟨_, e⟩ | ⟨_, hl, e⟩ | ⟨_, _, e⟩
  · left; rw [e]
  · right; right; rw [e]; exact ⟨hl, by simp only; omega⟩
  · right; left; rw [e]

/-- Claim C8. For a timestamp `now` different from `last_update`, with `T` the
token count after the refill step: `update_token_bucket` admits iff
`T ≥ packet_len`; on admit the stored tokens are `T - packet_len`, on reject
they stay `T`; `rate` and `capacity` are unchanged. -/
theorem update_token_bucket_admission (tb : token_bucket) (packet_len now : Nat)
    (hnow : now < 2 ^ 64) (hlu : tb.last_update < 2 ^ 64) (hne : now ≠ tb.last_update) :
    ((update_token_bucket tb packet_len now).1 = 1 ↔ packet_len ≤ (refill tb now).tokens) ∧
    ((update_token_bucket tb packet_len now).1 = 0 ↔ (refill tb now).tokens < packet_len) ∧
    (packet_len ≤ (refill tb now).tokens →
      (update_token_bucket tb packet_len now).2.tokens = (refill tb now).tokens - packet_len) ∧
    ((refill tb now).tokens < packet_len →
      (update_token_bucket tb packet_len now).2.tokens = (refill tb now).tokens) ∧
    (update_token_bucket tb packet_len now).2.rate = tb.rate ∧
    (update_token_bucket tb packet_len now).2.capacity = tb.capacity := by
  have hd : (now + 2 ^ 64 - tb.last_update) % 2 ^ 64 ≠ 0 := by omega
  rcases update_cases tb packet_len now with ⟨h0, _⟩ | ⟨_, hl, e⟩ | ⟨_, hl, e⟩
  · exact absurd h0 hd
  · rw [e]
    refine ⟨by simp [hl], by simp; omega, fun _ => rfl, fun h => by omega, rfl, rfl⟩
  · rw [e]
    refine ⟨by simp; omega, by simp [hl], fun h => by omega, fun _ => rfl, rfl, rfl⟩

/-! ## Theorems: ingress program -/

/-- The tail of the program returns `XDP_PASS`. -/
theorem xdp_enqueue_exit_action (m : xdp_maps) (c n : Nat) :
    (xdp_enqueue_exit m c n).1 = XDP_PASS := rfl

/-- The tail of the program does not write the token buckets. -/
theorem xdp_enqueue_exit_buckets (m : xdp_maps) (c n : Nat) :
    (xdp_enqueue_exit m c n).2.token_buckets = m.token_buckets := by
  unfold xdp_enqueue_exit
  cases m.queue_stats c <;> rfl

/-- The tail of the program does not write the flow table. -/
theorem xdp_enqueue_exit_flows (m : xdp_maps) (c n : Nat) :
    (xdp_enqueue_exit m c n).2.flow_table = m.flow_table := by
  unfold xdp_enqueue_exit
  cases m.queue_stats c <;> rfl

/-- A packet without a flow key is passed. -/
theorem action_unparsed (m : xdp_maps) (data : Packet) (now : Nat)
    (hp : parse_flow data = none) : (xdp_packet_classifier m data now).1 = XDP_PASS := by
  unfold xdp_packet_classifier
  simp only [hp]
  rfl

/-- A packet whose class has no class config is passed. -/
theorem action_no_config (m : xdp_maps) (data : Packet) (now : Nat) (flow : flow_tuple)
    (hp : parse_flow data = some flow)
    (hc : m.class_config (classify_packet m.class_rules flow) = none) :
    (xdp_packet_classifier m data now).1 = XDP_PASS := by
  unfold xdp_packet_classifier
  simp only [hp, hc]
  rfl

/-- A packet whose class has no token bucket is passed. -/
theorem action_no_bucket (m : xdp_maps) (data : Packet) (now : Nat) (flow : flow_tuple)
    (cfg : class_config) (hp : parse_flow data = some flow)
    (hc : m.class_config (classify_packet m.class_rules flow) = some cfg)
    (hb : m.token_buckets (classify_packet m.class_rules flow) = none) :
    (xdp_packet_classifier m data now).1 = XDP_PASS := by
  unfold xdp_packet_classifier
  simp only [hp, hc, hb]
  rfl

/-- With a class config and a bucket, the action is decided by the rate limiter. -/
theorem action_bucket (m : xdp_maps) (data : Packet) (now : Nat) (flow : flow_tuple)
    (cfg : class_config) (tb : token_bucket) (hp : parse_flow data = some flow)
    (hc : m.class_config (classify_packet m.class_rules flow) = some cfg)
    (hb : m.token_buckets (classify_packet m.class_rules flow) = some tb) :
    (xdp_packet_classifier m data now).1 =
      if tb.rate > 0 ∧ (update_token_bucket tb (data.length % 2 ^ 32) now).1 = 0
      then XDP_DROP else XDP_PASS := by
  unfold xdp_packet_classifier
  simp only [hp, hc, hb]
  by_cases hr : tb.rate > 0
  · by_cases hu : (update_token_bucket tb (data.length % 2 ^ 32) now).1 = 0
    · rw [if_pos hr, if_pos hu, if_pos ⟨hr, hu⟩]
    · rw [if_pos hr, if_neg hu, if_neg (fun h => hu h.2)]
      rfl
  · rw [if_neg hr, if_neg (fun h => hr h.1)]
    rfl

/-- Claim C4. The ingress program returns `XDP_DROP` exactly when the packet
parses to a flow key, its class has a class config, the class's bucket exists
with `rate > 0` and `update_token_bucket` rejects the packet; in every other
case it returns `XDP_PASS`, so it returns no other action. -/
theorem xdp_packet_classifier_action (m : xdp_maps) (data : Packet) (now : Nat) :
    ((xdp_packet_classifier m data now).1 = XDP_DROP ↔ ingress_drop_condition m data now) ∧
    ((xdp_packet_classifier m data now).1 = XDP_PASS ↔ ¬ ingress_drop_condition m data now) := by
  have hne : XDP_PASS ≠ XDP_DROP := by decide
  have key : (ingress_drop_condition m data now ∧
        (xdp_packet_classifier m data now).1 = XDP_DROP) ∨
      (¬ ingress_drop_condition m data now ∧
        (xdp_packet_classifier m data now).1 = XDP_PASS) := by
    cases hp : parse_flow data with
    | none =>
      right
      refine ⟨?_, action_unparsed m data now hp⟩
      rintro ⟨flow, tb, h, _⟩
      rw [hp] at h
      exact Option.noConfusion h
    | some flow =>
      cases hc : m.class_config (classify_packet m.class_rules flow) with
      | none =>
        right
        refine ⟨?_, action_no_config m data now flow hp hc⟩
        rintro ⟨flow2, tb, h, h2, _⟩
        rw [hp] at h
        cases h
        rw [hc] at h2
        exact Bool.noConfusion h2
      | some cfg =>
        cases hb : m.token_buckets (classify_packet m.class_rules flow) with
        | none =>
          right
          refine ⟨?_, action_no_bucket m data now flow cfg hp hc hb⟩
          rintro ⟨flow2, tb, h, _, h3, _⟩
          rw [hp] at h
          cases h
          rw [hb] at h3
          exact Option.noConfusion h3
        | some tb =>
          have ha := action_bucket m data now flow cfg tb hp hc hb
          by_cases hd : tb.rate > 0 ∧ (update_token_bucket tb (data.length % 2 ^ 32) now).1 = 0
          · left
            rw [if_pos hd] at ha
            exact ⟨⟨flow, tb, hp, by rw [hc]; rfl, hb, hd.1, hd.2⟩, ha⟩
          · right
            rw [if_neg hd] at ha
            refine ⟨?_, ha⟩
            rintro ⟨flow2, tb2, h, _, h3, h4, h5⟩
            rw [hp] at h
            cases h
            rw [hb] at h3
            cases h3
            exact hd ⟨h4, h5⟩
  rcases key with ⟨hc, ha⟩ | ⟨hc, ha⟩
  · rw [ha]
    exact ⟨⟨fun _ => hc, fun _ => rfl⟩, ⟨fun h => absurd h.symm hne, fun h => absurd hc h⟩⟩
  · rw [ha]
    exact ⟨⟨fun h => absurd h hne, fun h => absurd h hc⟩, ⟨fun _ => hc, fun _ => rfl⟩⟩

/-- The flow table after a run on a parsed packet is the tracked table. -/
theorem xdp_flow_table (m : xdp_maps) (data : Packet) (now : Nat) (flow : flow_tuple)
    (hp : parse_flow data = some flow) :
    (xdp_packet_classifier m data now).2.flow_table =
      track_flow m.flow_table flow data.length now (classify_packet m.class_rules flow) := by
  unfold xdp_packet_classifier
  simp only [hp]
  cases m.class_config (classify_packet m.class_rules flow) with
  | none => rfl
  | some cfg =>
    cases m.token_buckets (classify_packet m.class_rules flow) with
    | none => simp only [xdp_enqueue_exit_flows]
    | some tb =>
      simp only []
      split_ifs
      · rfl
      · simp only [xdp_enqueue_exit_flows]
      · simp only [xdp_enqueue_exit_flows]

/-- Claim C10. For a flow key without a record, the ingress program stores a
record with `packet_count = 1`, `byte_count` the packet length, `last_seen = now`,
the class returned by the classifier, `queue_id = 0`, `weight = 1`,
`deficit = 0` (and `tokens = 0`, `priority = 0`), and leaves the records of all
other keys unchanged. -/
theorem first_packet_creates_record (m : xdp_maps) (data : Packet) (now : Nat)
    (flow : flow_tuple) (hp : parse_flow data = some flow)
    (hnew : m.flow_table flow = none) :
    (xdp_packet_classifier m data now).2.flow_table flow =
      some { packet_count := 1, byte_count := data.length, last_seen := now,
             class_id := classify_packet m.class_rules flow, queue_id := 0, tokens := 0,
             last_token_update := now % 2 ^ 32, priority := 0, weight := 1, deficit := 0 } ∧
    ∀ k, k ≠ flow → (xdp_packet_classifier m data now).2.flow_table k = m.flow_table k := by
  rw [xdp_flow_table m data now flow hp]
  unfold track_flow
  rw [hnew]
  constructor
  · simp [map_update, new_flow]
  · intro k hk
    simp [map_update, hk]

/-- Claim C9. When the bucket of the packet's class has `rate = 0`, the ingress
program returns `XDP_PASS` whatever the packet length, timestamp and token
count, and leaves the token bucket map (hence that bucket's `tokens` and
`last_update`) unchanged. -/
theorem rate_zero_is_unlimited (m : xdp_maps) (data : Packet) (now : Nat)
    (flow : flow_tuple) (tb : token_bucket) (hp : parse_flow data = some flow)
    (hb : m.token_buckets (classify_packet m.class_rules flow) = some tb)
    (hr : tb.rate = 0) :
    (xdp_packet_classifier m data now).1 = XDP_PASS ∧
    (xdp_packet_classifier m data now).2.token_buckets = m.token_buckets := by
  have hr0 : ¬ tb.rate > 0 := by omega
  unfold xdp_packet_classifier
  simp only [hp, hb]
  cases m.class_config (classify_packet m.class_rules flow) with
  | none => exact ⟨rfl, rfl⟩
  | some cfg =>
    simp only []
    rw [if_neg hr0]
    exact ⟨rfl, by rw [xdp_enqueue_exit_buckets]⟩

/-! ### Evaluations and instances -/

/-- Claim C1, instance: the UDP 5060 rule sits in slot 1 behind a web rule that
does not match; the packet to port 5060 is classified to class 2. -/
theorem classify_packet_first_match_witness :
    rule_matches_spec rule_voip flow_udp_5060 ∧
    classify_packet rules_web_voip flow_udp_5060 = 2 :=
  ⟨by decide,
    classify_packet_first_match rules_web_voip flow_udp_5060 1 rule_voip (by decide) rfl
      (by decide)
      (by
        intro j hj hs
        obtain ⟨rule, hr, hm⟩ := hs
        have hj0 : j = 0 := by omega
        subst hj0
        have hw : rule = rule_web := by
          have h2 : rules_web_voip 0 = some rule_web := rfl
          rw [h2] at hr
          exact (Option.some.inj hr).symm
        subst hw
        revert hm
        decide)⟩

/-- Claim C2, evaluation. The global config sets `default_class = 3` and no rule
matches the UDP packet to port 9999 (every slot holds the UDP 5060 rule), yet
`classify_packet` returns `TC_DEFAULT = 7`, and the flow record created by the
ingress program carries class 7. -/
theorem classify_packet_ignores_default_class :
    maps_voip.global_config.map (fun g => g.default_class) = some 3 ∧
    parse_flow packet_udp_9999 = some flow_udp_9999 ∧
    ¬ rule_matches_spec rule_voip flow_udp_9999 ∧
    classify_packet maps_voip.class_rules flow_udp_9999 = 7 ∧
    ((xdp_packet_classifier maps_voip packet_udp_9999 1).2.flow_table flow_udp_9999).map
      (fun f => f.class_id) = some 7 := by
  refine ⟨rfl, by decide, by decide, by decide, ?_⟩
  rw [xdp_flow_table maps_voip packet_udp_9999 1 flow_udp_9999 (by decide)]
  decide

/-- Claim C3, evaluation. Slot 0 holds a rule of priority 1 (class 1), slot 1 a
rule of priority 10 (class 2); both match the UDP packet to port 5060, and
`classify_packet` returns class 1, the class of the lower priority rule. -/
theorem classify_packet_ignores_priority :
    rules_low_first 0 = some rule_any_udp ∧ rules_low_first 1 = some rule_voip ∧
    rule_matches_spec rule_any_udp flow_udp_5060 ∧
    rule_matches_spec rule_voip flow_udp_5060 ∧
    rule_any_udp.priority < rule_voip.priority ∧
    classify_packet rules_low_first flow_udp_5060 = rule_any_udp.class_id ∧
    rule_any_udp.class_id ≠ rule_voip.class_id := by
  refine ⟨rfl, rfl, ?_, ?_, ?_, ?_, ?_⟩ <;> decide

/-- Claim C5, evaluation. On the full bucket (rate 1000, capacity 1000,
tokens 1000), three 400-byte packets at one timestamp are decided drop, drop,
drop with the tokens left at 1000 when the timestamp equals `last_update`, and
admit, drop, drop with the tokens left at 600 when it differs. -/
theorem same_timestamp_packets_rejected :
    run_bucket bucket_1000 [(400, 0), (400, 0), (400, 0)] = ([0, 0, 0], bucket_1000) ∧
    run_bucket bucket_1000 [(400, 5), (400, 5), (400, 5)] =
      ([1, 0, 0], { tokens := 600, rate := 1000, capacity := 1000, last_update := 5 }) := by
  constructor <;> decide

/-- Claim C6, instance: the scenario bucket under four calls. -/
theorem token_bucket_invariant_witness :
    bucket_1000.tokens ≤ bucket_1000.capacity ∧
    ((∀ b ∈ bucket_trace bucket_1000 [(400, 5), (400, 5), (900, 300000005), (64, 9000000000)],
        b.tokens ≤ b.capacity) ∧
      (∀ (b : token_bucket) (len now : Nat),
        (update_token_bucket b len now).2.tokens = b.tokens ∨
        (update_token_bucket b len now).2.tokens = (refill b now).tokens ∨
        (len ≤ (refill b now).tokens ∧
          (update_token_bucket b len now).2.tokens + len = (refill b now).tokens))) :=
  ⟨by decide,
    token_bucket_invariant bucket_1000
      [(400, 5), (400, 5), (900, 300000005), (64, 9000000000)] (by decide)⟩

/-- Claim C7, evaluation. A 1 Gbit/s bucket (rate = capacity = 125000000),
empty, is refilled 35 seconds after its last update: the formula of the claim
gives `min(capacity, 4375000000) = 125000000`, the code stores the 32-bit
truncation `4375000000 mod 2^32 = 80032704`. -/
theorem refill_truncates_to_32_bits :
    bucket_gigabit.last_update < 35000000000 ∧
    min bucket_gigabit.capacity
      (bucket_gigabit.tokens +
        bucket_gigabit.rate * (35000000000 - bucket_gigabit.last_update) / NSEC_PER_SEC)
      = 125000000 ∧
    (refill bucket_gigabit 35000000000).tokens = 80032704 ∧
    update_token_bucket bucket_gigabit 1500 35000000000 =
      (1, { tokens := 80031204, rate := 125000000, capacity := 125000000,
            last_update := 35000000000 }) := by
  refine ⟨?_, ?_, ?_, ?_⟩ <;> decide

/-- Claim C8, instance: the scenario bucket, a 400-byte packet at `now = 5`. -/
theorem update_token_bucket_admission_witness :
    (5 < 2 ^ 64 ∧ bucket_1000.last_update < 2 ^ 64 ∧ 5 ≠ bucket_1000.last_update) ∧
    (((update_token_bucket bucket_1000 400 5).1 = 1 ↔ 400 ≤ (refill bucket_1000 5).tokens) ∧
    ((update_token_bucket bucket_1000 400 5).1 = 0 ↔ (refill bucket_1000 5).tokens < 400) ∧
    (400 ≤ (refill bucket_1000 5).tokens →
      (update_token_bucket bucket_1000 400 5).2.tokens = (refill bucket_1000 5).tokens - 400) ∧
    ((refill bucket_1000 5).tokens < 400 →
      (update_token_bucket bucket_1000 400 5).2.tokens = (refill bucket_1000 5).tokens) ∧
    (update_token_bucket bucket_1000 400 5).2.rate = bucket_1000.rate ∧
    (update_token_bucket bucket_1000 400 5).2.capacity = bucket_1000.capacity) :=
  ⟨by decide,
    update_token_bucket_admission bucket_1000 400 5 (by decide) (by decide) (by decide)⟩

/-- Claim C9, instance: class 2 has a `rate = 0` bucket; the packet to port 5060
is passed and the buckets are unchanged. -/
theorem rate_zero_is_unlimited_witness :
    (parse_flow packet_udp_5060 = some flow_udp_5060 ∧
      maps_voip.token_buckets (classify_packet maps_voip.class_rules flow_udp_5060) =
        some bucket_unlimited ∧ bucket_unlimited.rate = 0) ∧
    ((xdp_packet_classifier maps_voip packet_udp_5060 7).1 = XDP_PASS ∧
      (xdp_packet_classifier maps_voip packet_udp_5060 7).2.token_buckets =
        maps_voip.token_buckets) :=
  ⟨by decide,
    rate_zero_is_unlimited maps_voip packet_udp_5060 7 flow_udp_5060 bucket_unlimited
      (by decide) (by decide) rfl⟩

/-- Claim C10, instance: the first packet of the UDP 5060 flow on an empty
flow table. -/
theorem first_packet_creates_record_witness :
    (parse_flow packet_udp_5060 = some flow_udp_5060 ∧
      maps_voip.flow_table flow_udp_5060 = none) ∧
    ((xdp_packet_classifier maps_voip packet_udp_5060 7).2.flow_table flow_udp_5060 =
      some { packet_count := 1, byte_count := packet_udp_5060.length, last_seen := 7,
             class_id := classify_packet maps_voip.class_rules flow_udp_5060, queue_id := 0,
             tokens := 0, last_token_update := 7 % 2 ^ 32, priority := 0, weight := 1,
             deficit := 0 } ∧
    ∀ k, k ≠ flow_udp_5060 →
      (xdp_packet_classifier maps_voip packet_udp_5060 7).2.flow_table k =
        maps_voip.flow_table k) :=
  ⟨⟨by decide, rfl⟩,
    first_packet_creates_record maps_voip packet_udp_5060 7 flow_udp_5060 (by decide) rfl⟩

/-! ## Theorems: flow tracking and egress fail-open -/

/-- Claim C11, amended. For a flow key that already has a record, the ingress
program sets `packet_count` to `(old + 1) mod 2^64` and `byte_count` to
`(old + L) mod 2^64` (that is `old + 1` and `old + L` unless the 64-bit counter
wraps), `last_seen` to `now` and `class_id` to the class returned by the
classifier; `queue_id`, `priority`, `weight`, `deficit` and the token fields of
the record, and the records of all other keys, are unchanged. -/
theorem existing_flow_record_update (m : xdp_maps) (data : Packet) (now : Nat)
    (flow : flow_tuple) (st : flow_state) (hp : parse_flow data = some flow)
    (hst : m.flow_table flow = some st) :
    (xdp_packet_classifier m data now).2.flow_table flow =
      some { st with packet_count := (st.packet_count + 1) % 2 ^ 64,
                     byte_count := (st.byte_count + data.length) % 2 ^ 64,
                     last_seen := now,
                     class_id := classify_packet m.class_rules flow } ∧
    (st.packet_count + 1 < 2 ^ 64 → st.byte_count + data.length < 2 ^ 64 →
      (xdp_packet_classifier m data now).2.flow_table flow =
        some { st with packet_count := st.packet_count + 1,
                       byte_count := st.byte_count + data.length,
                       last_seen := now,
                       class_id := classify_packet m.class_rules flow }) ∧
    ∀ k, k ≠ flow → (xdp_packet_classifier m data now).2.flow_table k = m.flow_table k := by
  rw [xdp_flow_table m data now flow hp]
  unfold track_flow
  rw [hst]
  refine ⟨?_, ?_, ?_⟩
  · simp only [map_update, if_true]
  · intro h1 h2
    simp only [map_update, if_true, Nat.mod_eq_of_lt h1, Nat.mod_eq_of_lt h2]
  · intro k hk
    simp only [map_update, if_neg hk]


/-- Claim C12. If the packet's flow key has no flow record, or the recorded
class has no class config, or the global config is absent, then
`tc_packet_scheduler` returns `TC_ACT_OK` and leaves the packet and every map
(flow records, scheduler auxiliary state, queue statistics) unchanged. -/
theorem tc_fails_open (m : tc_maps) (skb : sk_buff) (now : Nat)
    (h : m.flow_table (extract_flow_tuple skb flow_zero).2 = none ∨
      (∃ st, m.flow_table (extract_flow_tuple skb flow_zero).2 = some st ∧
        m.class_config st.class_id = none) ∨
      m.global_config = none) :
    tc_packet_scheduler m skb now = (TC_ACT_OK, skb, m) := by
  unfold tc_packet_scheduler
  simp only []
  split_ifs with he
  · rfl
  · rcases h with h | ⟨st, h1, h2⟩ | h
    · rw [h]
    · rw [h1]
      simp only [h2]
    · cases m.flow_table (extract_flow_tuple skb flow_zero).2 with
      | none => rfl
      | some st =>
        simp only []
        cases m.class_config st.class_id with
        | none => rfl
        | some cfg => simp only [h]

/-! ## Theorems: round robin -/

/-- The queues assigned and the cursor left by a run of round-robin calls. -/
theorem rr_run_spec (class_id : Nat) (flows : List flow_state) :
    ∀ (rr_state : Nat → Option Nat) (c : Nat), rr_state class_id = some c → c < 16 →
      (rr_run rr_state class_id flows).1 =
        (List.range flows.length).map (fun k => (c + k) % 16) ∧
      (rr_run rr_state class_id flows).2 class_id = some ((c + flows.length) % 16) ∧
      ∀ other, other ≠ class_id →
        (rr_run rr_state class_id flows).2 other = rr_state other := by
  induction flows with
  | nil =>
    intro rr_state c hc hlt
    refine ⟨rfl, ?_, fun _ _ => rfl⟩
    simp only [rr_run, List.length_nil, Nat.add_zero, Nat.mod_eq_of_lt hlt, hc]
  | cons f rest ih =>
    intro rr_state c hc hlt
    have hstep : schedule_round_robin rr_state f class_id =
        (TC_ACT_OK, { f with queue_id := c },
          map_update rr_state class_id (((c + 1) % 2 ^ 32) % MAX_QUEUES_PER_CLASS)) := by
      simp only [schedule_round_robin, hc]
    have hnew : map_update rr_state class_id (((c + 1) % 2 ^ 32) % MAX_QUEUES_PER_CLASS)
        class_id = some ((c + 1) % 16) := by
      simp only [map_update, if_true, MAX_QUEUES_PER_CLASS]
      congr 1
      omega
    obtain ⟨h1, h2, h3⟩ := ih _ ((c + 1) % 16) hnew (Nat.mod_lt _ (by norm_num))
    simp only [rr_run, hstep, List.length_cons]
    refine ⟨?_, ?_, ?_⟩
    · rw [h1, List.range_succ_eq_map, List.map_cons, List.map_map]
      refine congrArg₂ List.cons ?_ ?_
      · simp only [Nat.add_zero, Nat.mod_eq_of_lt hlt]
      · apply List.map_congr_left
        intro k _
        simp only [Function.comp]
        omega
    · rw [h2]
      congr 1
      omega
    · intro other ho
      rw [h3 other ho]
      simp only [map_update, if_neg ho]

/-- A rotation of `0..15` is a permutation of `0..15`. -/
theorem rotation_perm (c : Nat) (hlt : c < 16) :
    ((List.range 16).map (fun k => (c + k) % 16)).Perm (List.range 16) := by
  interval_cases c <;> decide

/-- Claim C14. Starting from a cursor `c < 16`, call `k` of consecutive
`schedule_round_robin` calls for a class assigns queue `(c + k) mod 16` and
leaves the cursor at `(c + k + 1) mod 16`; the cursors of other classes are
unchanged; 16 consecutive calls assign each queue `0..15` exactly once and
return the cursor to `c`. -/
theorem round_robin_rotation (rr_state : Nat → Option Nat) (class_id c : Nat)
    (flows : List flow_state) (hc : rr_state class_id = some c) (hlt : c < 16) :
    (∀ k, k < flows.length →
      (rr_run rr_state class_id flows).1[k]? = some ((c + k) % 16) ∧
      (rr_run rr_state class_id (flows.take (k + 1))).2 class_id = some ((c + k + 1) % 16)) ∧
    (∀ other, other ≠ class_id →
      (rr_run rr_state class_id flows).2 other = rr_state other) ∧
    (flows.length = 16 →
      (rr_run rr_state class_id flows).1.Perm (List.range 16) ∧
      (rr_run rr_state class_id flows).2 class_id = some c) := by
  obtain ⟨h1, h2, h3⟩ := rr_run_spec class_id flows rr_state c hc hlt
  refine ⟨?_, h3, ?_⟩
  · intro k hk
    constructor
    · rw [h1]
      simp [hk]
    · have := (rr_run_spec class_id (flows.take (k + 1)) rr_state c hc hlt).2.1
      rw [this, List.length_take, Nat.min_eq_left (by omega), Nat.add_assoc]
  · intro hlen
    rw [h1, h2, hlen]
    refine ⟨rotation_perm c hlt, ?_⟩
    congr 1
    omega

/-! ## Theorems: weighted fair queuing and strict priority -/

/-- The divisor `weight ? weight : 1` is `max(weight, 1)`. -/
theorem wfq_weight_eq_max (w : Nat) : (if w ≠ 0 then w else 1) = max w 1 := by
  split_ifs with h <;> omega

/-- Claim C15, amended. For every class virtual time `vtime`, packet length
and flow weight `w`, `schedule_wfq` computes
`vft = (vtime + floor(len / max(w, 1))) mod 2^64` (the 64-bit sum), stores it
as the class's virtual time and sets `queue_id = vft mod 16`; a weight of 0
divides as 1.  When the sum stays below `2^64` it is the exact sum. -/
theorem schedule_wfq_virtual_finish_time (wfq_vtime : Nat → Option Nat)
    (pkt_len : Nat) (flow_st : flow_state) (class_id vtime : Nat)
    (hv : wfq_vtime class_id = some vtime) :
    (schedule_wfq wfq_vtime pkt_len flow_st class_id).1 = TC_ACT_OK ∧
    (schedule_wfq wfq_vtime pkt_len flow_st class_id).2.2 class_id =
      some ((vtime + pkt_len / max flow_st.weight 1) % 2 ^ 64) ∧
    (schedule_wfq wfq_vtime pkt_len flow_st class_id).2.1.queue_id =
      ((vtime + pkt_len / max flow_st.weight 1) % 2 ^ 64) % 16 ∧
    (vtime + pkt_len / max flow_st.weight 1 < 2 ^ 64 →
      (schedule_wfq wfq_vtime pkt_len flow_st class_id).2.2 class_id =
        some (vtime + pkt_len / max flow_st.weight 1) ∧
      (schedule_wfq wfq_vtime pkt_len flow_st class_id).2.1.queue_id =
        (vtime + pkt_len / max flow_st.weight 1) % 16) := by
  simp only [schedule_wfq, hv, wfq_weight_eq_max, map_update, if_true, MAX_QUEUES_PER_CLASS,
    true_and]
  intro h
  rw [Nat.mod_eq_of_lt h]
  exact ⟨rfl, rfl⟩

/-- Virtual times of a run of WFQ calls whose accumulated sum stays below `2^64`. -/
theorem wfq_run_no_wrap (class_id : Nat) (calls : List (Nat × flow_state)) :
    ∀ (wfq_vtime : Nat → Option Nat) (vtime : Nat), wfq_vtime class_id = some vtime →
      vtime + (calls.map (fun c => c.1 / max c.2.weight 1)).sum < 2 ^ 64 →
      ∃ vs : List Nat, wfq_run wfq_vtime class_id calls = vs.map some ∧
        List.Chain (fun a b => a ≤ b) vtime vs := by
  induction calls with
  | nil => intro _ _ _ _; exact ⟨[], rfl, List.Chain.nil⟩
  | cons c rest ih =>
    intro wfq_vtime vtime hv hsum
    obtain ⟨pkt_len, flow_st⟩ := c
    simp only [List.map_cons, List.sum_cons] at hsum
    have hlt : vtime + pkt_len / max flow_st.weight 1 < 2 ^ 64 := by omega
    have hs := (schedule_wfq_virtual_finish_time wfq_vtime pkt_len flow_st class_id vtime
      hv).2.2.2 hlt
    obtain ⟨vs, h1, h2⟩ := ih (schedule_wfq wfq_vtime pkt_len flow_st class_id).2.2
      (vtime + pkt_len / max flow_st.weight 1) hs.1 (by omega)
    refine ⟨(vtime + pkt_len / max flow_st.weight 1) :: vs, ?_, ?_⟩
    · simp only [wfq_run, List.map_cons, hs.1, h1]
    · exact List.Chain.cons (Nat.le_add_right _ _) h2

/-- Claim C16, amended. For every class, initial virtual time and sequence of
packets (any lengths, any weights) whose accumulated virtual time stays below
`2^64`, the class's virtual time after each `schedule_wfq` call is greater than
or equal to its value before the call. -/
theorem wfq_vtime_monotone_without_wrap (wfq_vtime : Nat → Option Nat) (class_id vtime : Nat)
    (calls : List (Nat × flow_state)) (hv : wfq_vtime class_id = some vtime)
    (hsum : vtime + (calls.map (fun c => c.1 / max c.2.weight 1)).sum < 2 ^ 64) :
    ∃ vs : List Nat, wfq_run wfq_vtime class_id calls = vs.map some ∧
      List.Chain (fun a b => a ≤ b) vtime vs :=
  wfq_run_no_wrap class_id calls wfq_vtime vtime hv hsum

/-- Claim C17, amended. When no anti-starvation promotion applies,
`schedule_strict_priority` assigns `queue_id = p` for a class priority
`p < 16` and `queue_id = 0` for `p ≥ 16`; this is `min(p, 15)` for `p ≤ 15`. -/
theorem strict_priority_queue_mapping (starvation_threshold last now : Nat)
    (flow_st : flow_state) (cfg : class_config)
    (hno : ¬ (starvation_threshold > 0 ∧ cfg.priority > 2 ∧
      (now + 2 ^ 64 - last) % 2 ^ 64 > (starvation_threshold * 1000000) % 2 ^ 64)) :
    (schedule_strict_priority starvation_threshold last now flow_st cfg).2.1.queue_id =
      (if cfg.priority < 16 then cfg.priority else 0) ∧
    (cfg.priority ≤ 15 →
      (schedule_strict_priority starvation_threshold last now flow_st cfg).2.1.queue_id =
        min cfg.priority 15) := by
  have hq : (schedule_strict_priority starvation_threshold last now flow_st cfg).2.1.queue_id =
      (if cfg.priority < 16 then cfg.priority else 0) := by
    unfold schedule_strict_priority
    simp only [MAX_QUEUES_PER_CLASS]
    by_cases ht : starvation_threshold > 0
    · rw [if_pos ht, if_neg (fun h => hno ⟨ht, h.1, h.2⟩)]
    · rw [if_neg ht]
  refine ⟨hq, fun hp => ?_⟩
  rw [hq, if_pos (by omega), Nat.min_eq_left hp]

/-- Claim C18. With a threshold of `T` milliseconds and `last ≤ now`: when
`T > 0`, the class priority exceeds 2 and `now - last > T * 10^6`, the call
sets `queue_id = 0` and the last-low-priority-service timestamp to `now`; in
every other case (`T = 0`, priority at most 2, or elapsed not above the
threshold) the timestamp is unchanged and `queue_id` is the plain priority
mapping. -/
theorem strict_priority_anti_starvation (T last now : Nat) (flow_st : flow_state)
    (cfg : class_config) (hT : T < 2 ^ 32) (hnow : now < 2 ^ 64) (hlast : last ≤ now) :
    (0 < T → 2 < cfg.priority → now - last > T * 1000000 →
      schedule_strict_priority T last now flow_st cfg =
        (TC_ACT_OK, { flow_st with queue_id := 0 }, now)) ∧
    (T = 0 ∨ cfg.priority ≤ 2 ∨ now - last ≤ T * 1000000 →
      schedule_strict_priority T last now flow_st cfg =
        (TC_ACT_OK,
          { flow_st with queue_id := if cfg.priority < 16 then cfg.priority else 0 }, last)) := by
  have he : (now + 2 ^ 64 - last) % 2 ^ 64 = now - last := by omega
  have ht : (T * 1000000) % 2 ^ 64 = T * 1000000 := by omega
  unfold schedule_strict_priority
  simp only [he, ht, MAX_QUEUES_PER_CLASS]
  constructor
  · intro h1 h2 h3
    rw [if_pos h1, if_pos ⟨h2, h3⟩]
  · intro h
    by_cases h1 : T > 0
    · rw [if_pos h1, if_neg (by omega)]
    · rw [if_neg h1]

/-! ## Theorems: deficit round robin -/

/-- The two outcomes of `schedule_drr` for a flow with a stored deficit. -/
theorem schedule_drr_stored (drr_deficit : flow_tuple → Option Nat) (pkt_len : Nat)
    (flow : flow_tuple) (flow_st : flow_state) (gcfg : global_config) (d : Nat)
    (hd : drr_deficit flow = some d) :
    (pkt_len ≤ (d + drr_quantum gcfg) % 2 ^ 32 ∧
      schedule_drr drr_deficit pkt_len flow flow_st gcfg =
        (TC_ACT_OK, { flow_st with deficit := (d + drr_quantum gcfg) % 2 ^ 32 - pkt_len },
          map_update drr_deficit flow ((d + drr_quantum gcfg) % 2 ^ 32 - pkt_len))) ∨
    ((d + drr_quantum gcfg) % 2 ^ 32 < pkt_len ∧
      schedule_drr drr_deficit pkt_len flow flow_st gcfg =
        (TC_ACT_SHOT, flow_st, map_update drr_deficit flow ((d + drr_quantum gcfg) % 2 ^ 32))) := by
  have hlt : (d + drr_quantum gcfg) % 2 ^ 32 < 2 ^ 32 := Nat.mod_lt _ (by norm_num)
  by_cases h : pkt_len ≤ (d + drr_quantum gcfg) % 2 ^ 32
  · left
    refine ⟨h, ?_⟩
    have hs := sub32_exact _ _ hlt h
    unfold drr_quantum at h hs ⊢
    simp only [schedule_drr, hd, ge_iff_le, if_pos h, hs]
  · right
    refine ⟨by omega, ?_⟩
    unfold drr_quantum at h ⊢
    simp only [schedule_drr, hd, ge_iff_le, if_neg h]

/-- Packets not longer than the quantum are all admitted while the deficit does
not wrap, and each raises the stored deficit by `quantum - pkt_len`. -/
theorem drr_run_small_packets (pkt_len : Nat) (flow : flow_tuple) (gcfg : global_config)
    (hq : pkt_len ≤ drr_quantum gcfg) (flows : List flow_state) :
    ∀ (drr_deficit : flow_tuple → Option Nat) (d : Nat), drr_deficit flow = some d →
      d + flows.length * (drr_quantum gcfg - pkt_len) + pkt_len < 2 ^ 32 →
      (drr_run drr_deficit pkt_len flow gcfg flows).1 = List.replicate flows.length TC_ACT_OK ∧
      (drr_run drr_deficit pkt_len flow gcfg flows).2 flow =
        some (d + flows.length * (drr_quantum gcfg - pkt_len)) := by
  induction flows with
  | nil =>
    intro drr_deficit d hd _
    simp [drr_run, hd]
  | cons f rest ih =>
    intro drr_deficit d hd hb
    simp only [List.length_cons, Nat.succ_mul] at hb
    have hm : (d + drr_quantum gcfg) % 2 ^ 32 = d + drr_quantum gcfg := by
      apply Nat.mod_eq_of_lt
      omega
    rcases schedule_drr_stored drr_deficit pkt_len flow f gcfg d hd with ⟨_, e⟩ | ⟨hl, _⟩
    · rw [hm] at e
      have hnew : map_update drr_deficit flow (d + drr_quantum gcfg - pkt_len) flow =
          some (d + drr_quantum gcfg - pkt_len) := by
        simp only [map_update, if_true]
      obtain ⟨h1, h2⟩ := ih _ _ hnew (by omega)
      simp only [drr_run, e, h1, h2, List.length_cons, List.replicate_succ, Nat.succ_mul, true_and]
      congr 1
      omega
    · omega

/-- While `d + N * quantum` fits 32 bits, `N` admitted packets of length `L` leave
the stored deficit `d + N * quantum - N * L`. -/
theorem drr_run_admits (pkt_len : Nat) (flow : flow_tuple) (gcfg : global_config)
    (flows : List flow_state) :
    ∀ (drr_deficit : flow_tuple → Option Nat) (d : Nat), drr_deficit flow = some d →
      d + flows.length * drr_quantum gcfg < 2 ^ 32 →
      (drr_run drr_deficit pkt_len flow gcfg flows).1 = List.replicate flows.length TC_ACT_OK →
      ∃ s, (drr_run drr_deficit pkt_len flow gcfg flows).2 flow = some s ∧
        s + flows.length * pkt_len = d + flows.length * drr_quantum gcfg := by
  induction flows with
  | nil =>
    intro drr_deficit d hd _ _
    exact ⟨d, by simp [drr_run, hd], by simp⟩
  | cons f rest ih =>
    intro drr_deficit d hd hb hadm
    simp only [List.length_cons, Nat.succ_mul] at hb ⊢
    have hm : (d + drr_quantum gcfg) % 2 ^ 32 = d + drr_quantum gcfg := by
      apply Nat.mod_eq_of_lt
      omega
    rcases schedule_drr_stored drr_deficit pkt_len flow f gcfg d hd with ⟨hl, e⟩ | ⟨_, e⟩
    · rw [hm] at e hl
      have hnew : map_update drr_deficit flow (d + drr_quantum gcfg - pkt_len) flow =
          some (d + drr_quantum gcfg - pkt_len) := by
        simp only [map_update, if_true]
      simp only [drr_run, e, List.length_cons, List.replicate_succ, List.cons.injEq,
        true_and] at hadm ⊢
      obtain ⟨s, h1, h2⟩ := ih _ _ hnew (by omega) hadm
      exact ⟨s, h1, by omega⟩
    · simp only [drr_run, e, List.length_cons, List.replicate_succ, List.cons.injEq] at hadm
      exact absurd hadm.1 (by decide)

/-- Claim C20. For a flow holding the deficit `d`, a quantum `q` (the configured
one, 1500 when it is zero) and a packet length `L` with `d + q < L`,
`schedule_drr` returns `TC_ACT_SHOT` and leaves the flow record unchanged. -/
theorem drr_rejects_when_deficit_short (drr_deficit : flow_tuple → Option Nat)
    (pkt_len : Nat) (flow : flow_tuple) (flow_st : flow_state) (gcfg : global_config)
    (d : Nat) (hd : drr_deficit flow = some d)
    (hshort : d + (if gcfg.quantum ≠ 0 then gcfg.quantum else 1500) < pkt_len) :
    (schedule_drr drr_deficit pkt_len flow flow_st gcfg).1 = TC_ACT_SHOT ∧
    (schedule_drr drr_deficit pkt_len flow flow_st gcfg).2.1 = flow_st := by
  have hle : (d + drr_quantum gcfg) % 2 ^ 32 ≤ d + drr_quantum gcfg := Nat.mod_le _ _
  rcases schedule_drr_stored drr_deficit pkt_len flow flow_st gcfg d hd with ⟨hl, _⟩ | ⟨_, e⟩
  · unfold drr_quantum at hl hle
    omega
  · rw [e]
    exact ⟨rfl, rfl⟩

/-- Claim C19, evaluation. With quantum 1500 and 64-byte packets, 2990923
admitted packets raise a stored deficit of 1500 to 4294966928; on the next call
the 32-bit sum `4294966928 + 1500` wraps to 1132, the packet is admitted and
the stored deficit is 1068, not `d + q - L = 4294968364`. -/
theorem drr_deficit_wraps :
    (drr_run (fun k => if k = flow_udp_5060 then some 1500 else none) 64 flow_udp_5060
      (sample_global 3) (List.replicate 2990923 record_class2)).2 flow_udp_5060 =
      some 4294966928 ∧
    (schedule_drr (fun k => if k = flow_udp_5060 then some 4294966928 else none) 64
      flow_udp_5060 record_class2 (sample_global 3)).1 = TC_ACT_OK ∧
    (schedule_drr (fun k => if k = flow_udp_5060 then some 4294966928 else none) 64
      flow_udp_5060 record_class2 (sample_global 3)).2.2 flow_udp_5060 = some 1068 ∧
    (1068 : Nat) ≠ 4294966928 + 1 * 1500 - 1 * 64 := by
  refine ⟨?_, by decide, by decide, by decide⟩
  have hq : (64 : Nat) ≤ drr_quantum (sample_global 3) := by decide
  have h := (drr_run_small_packets 64 flow_udp_5060 (sample_global 3) hq
    (List.replicate 2990923 record_class2)
    (fun k => if k = flow_udp_5060 then some 1500 else none) 1500 (by simp)
    (by
      rw [List.length_replicate]
      have : drr_quantum (sample_global 3) = 1500 := by decide
      rw [this]
      norm_num)).2
  rw [h, List.length_replicate]
  have : drr_quantum (sample_global 3) = 1500 := by decide
  rw [this]

/-! ### Evaluations and instances: flow tracking and egress -/

/-- Claim C11, counterexample: a record whose `packet_count` is `2^64 - 1` is
left with `packet_count = 0`, not with the old value plus one. -/
theorem packet_count_wraps :
    maps_counter_max.flow_table flow_udp_5060 =
      some { record_class2 with packet_count := 2 ^ 64 - 1 } ∧
    ((xdp_packet_classifier maps_counter_max packet_udp_5060 9).2.flow_table
      flow_udp_5060).map (fun f => f.packet_count) = some 0 ∧
    (0 : Nat) ≠ (2 ^ 64 - 1) + 1 := by
  refine ⟨rfl, ?_, by decide⟩
  rw [xdp_flow_table maps_counter_max packet_udp_5060 9 flow_udp_5060 (by decide)]
  decide

/-- Claim C11, instance: the second packet of the UDP 5060 flow. -/
theorem existing_flow_record_update_witness :
    (parse_flow packet_udp_5060 = some flow_udp_5060 ∧
      maps_voip_tracked.flow_table flow_udp_5060 = some record_class2) ∧
    ((xdp_packet_classifier maps_voip_tracked packet_udp_5060 9).2.flow_table flow_udp_5060 =
      some { record_class2 with
             packet_count := (record_class2.packet_count + 1) % 2 ^ 64,
             byte_count := (record_class2.byte_count + packet_udp_5060.length) % 2 ^ 64,
             last_seen := 9,
             class_id := classify_packet maps_voip_tracked.class_rules flow_udp_5060 } ∧
    (record_class2.packet_count + 1 < 2 ^ 64 →
      record_class2.byte_count + packet_udp_5060.length < 2 ^ 64 →
      (xdp_packet_classifier maps_voip_tracked packet_udp_5060 9).2.flow_table flow_udp_5060 =
        some { record_class2 with
               packet_count := record_class2.packet_count + 1,
               byte_count := record_class2.byte_count + packet_udp_5060.length,
               last_seen := 9,
               class_id := classify_packet maps_voip_tracked.class_rules flow_udp_5060 }) ∧
    ∀ k, k ≠ flow_udp_5060 →
      (xdp_packet_classifier maps_voip_tracked packet_udp_5060 9).2.flow_table k =
        maps_voip_tracked.flow_table k) :=
  ⟨⟨by decide, rfl⟩,
    existing_flow_record_update maps_voip_tracked packet_udp_5060 9 flow_udp_5060
      record_class2 (by decide) rfl⟩

/-- Claim C12, instance: an empty flow table under round robin. -/
theorem tc_fails_open_witness :
    (maps_tc_no_flows 0).flow_table (extract_flow_tuple skb_udp_5060 flow_zero).2 = none ∧
    tc_packet_scheduler (maps_tc_no_flows 0) skb_udp_5060 9 =
      (TC_ACT_OK, skb_udp_5060, maps_tc_no_flows 0) :=
  ⟨rfl, tc_fails_open (maps_tc_no_flows 0) skb_udp_5060 9 (Or.inl rfl)⟩

/-- Claim C14, instance: 16 calls for class 2 starting from cursor 5. -/
theorem round_robin_rotation_witness :
    ((fun i => if i = 2 then some 5 else some 0 : Nat → Option Nat) 2 = some 5 ∧ 5 < 16) ∧
    ((∀ k, k < (List.replicate 16 record_class2).length →
      (rr_run (fun i => if i = 2 then some 5 else some 0) 2
        (List.replicate 16 record_class2)).1[k]? = some ((5 + k) % 16) ∧
      (rr_run (fun i => if i = 2 then some 5 else some 0) 2
        ((List.replicate 16 record_class2).take (k + 1))).2 2 = some ((5 + k + 1) % 16)) ∧
    (∀ other, other ≠ 2 →
      (rr_run (fun i => if i = 2 then some 5 else some 0) 2
        (List.replicate 16 record_class2)).2 other =
        (fun i => if i = 2 then some 5 else some 0 : Nat → Option Nat) other) ∧
    ((List.replicate 16 record_class2).length = 16 →
      (rr_run (fun i => if i = 2 then some 5 else some 0) 2
        (List.replicate 16 record_class2)).1.Perm (List.range 16) ∧
      (rr_run (fun i => if i = 2 then some 5 else some 0) 2
        (List.replicate 16 record_class2)).2 2 = some 5)) :=
  ⟨⟨rfl, by decide⟩,
    round_robin_rotation (fun i => if i = 2 then some 5 else some 0) 2 5
      (List.replicate 16 record_class2) rfl (by decide)⟩

/-- Claim C15, counterexample: a virtual time of `2^64 - 1` and a 1500-byte
packet of a weight-1 flow store the virtual time 1499, not `vtime + 1500`. -/
theorem wfq_finish_time_wraps :
    (schedule_wfq (fun _ => some (2 ^ 64 - 1)) 1500 record_class2 2).2.2 2 = some 1499 ∧
    (schedule_wfq (fun _ => some (2 ^ 64 - 1)) 1500 record_class2 2).2.2 2 ≠
      some (2 ^ 64 - 1 + 1500 / max record_class2.weight 1) := by
  constructor <;> decide

/-- Claim C15, instance: virtual time 1000, a 1500-byte packet, weight 1. -/
theorem schedule_wfq_virtual_finish_time_witness :
    (fun _ => some 1000 : Nat → Option Nat) 2 = some 1000 ∧
    ((schedule_wfq (fun _ => some 1000) 1500 record_class2 2).1 = TC_ACT_OK ∧
    (schedule_wfq (fun _ => some 1000) 1500 record_class2 2).2.2 2 =
      some ((1000 + 1500 / max record_class2.weight 1) % 2 ^ 64) ∧
    (schedule_wfq (fun _ => some 1000) 1500 record_class2 2).2.1.queue_id =
      ((1000 + 1500 / max record_class2.weight 1) % 2 ^ 64) % 16 ∧
    (1000 + 1500 / max record_class2.weight 1 < 2 ^ 64 →
      (schedule_wfq (fun _ => some 1000) 1500 record_class2 2).2.2 2 =
        some (1000 + 1500 / max record_class2.weight 1) ∧
      (schedule_wfq (fun _ => some 1000) 1500 record_class2 2).2.1.queue_id =
        (1000 + 1500 / max record_class2.weight 1) % 16)) :=
  ⟨rfl, schedule_wfq_virtual_finish_time (fun _ => some 1000) 1500 record_class2 2 1000 rfl⟩

/-- Claim C16, counterexample: from the virtual time `2^64 - 100`, a 1500-byte
packet of a weight-3 flow leaves the virtual time 400, which is smaller. -/
theorem wfq_vtime_decreases_on_wrap :
    wfq_run (fun _ => some (2 ^ 64 - 100)) 2 [(1500, { record_class2 with weight := 3 })] =
      [some 400] ∧
    (400 : Nat) < 2 ^ 64 - 100 := by
  constructor <;> decide

/-- Claim C16, instance: three packets of weights 1, 0 and 4 from virtual time 1000. -/
theorem wfq_vtime_monotone_without_wrap_witness :
    ((fun _ => some 1000 : Nat → Option Nat) 2 = some 1000 ∧
      1000 + (([(1500, record_class2), (64, { record_class2 with weight := 0 }),
        (9000, { record_class2 with weight := 4 })] : List (Nat × flow_state)).map
          (fun c => c.1 / max c.2.weight 1)).sum < 2 ^ 64) ∧
    ∃ vs : List Nat,
      wfq_run (fun _ => some 1000) 2
        [(1500, record_class2), (64, { record_class2 with weight := 0 }),
          (9000, { record_class2 with weight := 4 })] = vs.map some ∧
      List.Chain (fun a b => a ≤ b) 1000 vs :=
  ⟨⟨rfl, by decide⟩,
    wfq_vtime_monotone_without_wrap (fun _ => some 1000) 2 1000
      [(1500, record_class2), (64, { record_class2 with weight := 0 }),
        (9000, { record_class2 with weight := 4 })] rfl (by decide)⟩

/-- Claim C17, counterexample: without a starvation threshold a class of
priority 20 is given queue 0, not `min(20, 15) = 15`. -/
theorem strict_priority_above_15_maps_to_zero :
    (schedule_strict_priority 0 0 5 record_class2
      { sample_class 2 0 0 with priority := 20 }).2.1.queue_id = 0 ∧
    (schedule_strict_priority 0 0 5 record_class2
      { sample_class 2 0 0 with priority := 20 }).2.1.queue_id ≠ min 20 15 := by
  constructor <;> decide

/-- Claim C17, instance: priority 5 without a starvation threshold. -/
theorem strict_priority_queue_mapping_witness :
    ¬ ((0 : Nat) > 0 ∧ ({ sample_class 2 0 0 with priority := 5 } : class_config).priority > 2 ∧
      (9 + 2 ^ 64 - 0) % 2 ^ 64 > (0 * 1000000) % 2 ^ 64) ∧
    ((schedule_strict_priority 0 0 9 record_class2
        { sample_class 2 0 0 with priority := 5 }).2.1.queue_id =
      (if ({ sample_class 2 0 0 with priority := 5 } : class_config).priority < 16
        then ({ sample_class 2 0 0 with priority := 5 } : class_config).priority else 0) ∧
    (({ sample_class 2 0 0 with priority := 5 } : class_config).priority ≤ 15 →
      (schedule_strict_priority 0 0 9 record_class2
        { sample_class 2 0 0 with priority := 5 }).2.1.queue_id =
        min ({ sample_class 2 0 0 with priority := 5 } : class_config).priority 15)) :=
  ⟨by decide,
    strict_priority_queue_mapping 0 0 9 record_class2
      { sample_class 2 0 0 with priority := 5 } (by decide)⟩

/-- Claim C18, instance: threshold 100 ms, priority 5, 200 ms since the last
low-priority service. -/
theorem strict_priority_anti_starvation_witness :
    ((100 : Nat) < 2 ^ 32 ∧ (200000000 : Nat) < 2 ^ 64 ∧ (0 : Nat) ≤ 200000000) ∧
    ((0 < 100 → 2 < ({ sample_class 2 0 0 with priority := 5 } : class_config).priority →
      200000000 - 0 > 100 * 1000000 →
      schedule_strict_priority 100 0 200000000 record_class2
          { sample_class 2 0 0 with priority := 5 } =
        (TC_ACT_OK, { record_class2 with queue_id := 0 }, 200000000)) ∧
    (100 = 0 ∨ ({ sample_class 2 0 0 with priority := 5 } : class_config).priority ≤ 2 ∨
        200000000 - 0 ≤ 100 * 1000000 →
      schedule_strict_priority 100 0 200000000 record_class2
          { sample_class 2 0 0 with priority := 5 } =
        (TC_ACT_OK,
          { record_class2 with
            queue_id :=
              if ({ sample_class 2 0 0 with priority := 5 } : class_config).priority < 16
              then ({ sample_class 2 0 0 with priority := 5 } : class_config).priority
              else 0 }, 0))) :=
  ⟨by decide,
    strict_priority_anti_starvation 100 0 200000000 record_class2
      { sample_class 2 0 0 with priority := 5 } (by decide) (by decide) (by decide)⟩

/-- Claim C20, instance: stored deficit 100, quantum 1500, a 9000-byte packet. -/
theorem drr_rejects_when_deficit_short_witness :
    ((fun _ => some 100 : flow_tuple → Option Nat) flow_udp_5060 = some 100 ∧
      100 + (if (sample_global 3).quantum ≠ 0 then (sample_global 3).quantum else 1500) <
        9000) ∧
    ((schedule_drr (fun _ => some 100) 9000 flow_udp_5060 record_class2
        (sample_global 3)).1 = TC_ACT_SHOT ∧
      (schedule_drr (fun _ => some 100) 9000 flow_udp_5060 record_class2
        (sample_global 3)).2.1 = record_class2) :=
  ⟨⟨rfl, by decide⟩,
    drr_rejects_when_deficit_short (fun _ => some 100) 9000 flow_udp_5060 record_class2
      (sample_global 3) 100 rfl (by decide)⟩

/-! ## Theorems: deficit round robin, first packet -/

/-- Claim C21, evaluation. First DRR call of a flow, quantum 1500, a 1000-byte
packet: the packet is admitted and the flow record gets `deficit = 2q - L = 2000`,
but the deficit entry of the map, which the next call reads, holds `q = 1500`;
after a second such packet the entry holds `1500 + 1500 - 1000 = 2000`. -/
theorem drr_first_packet_deficit_not_stored :
    (schedule_drr (fun _ => none) 1000 flow_udp_5060 record_class2 (sample_global 3)).1 =
      TC_ACT_OK ∧
    (schedule_drr (fun _ => none) 1000 flow_udp_5060 record_class2
      (sample_global 3)).2.1.deficit = 2 * 1500 - 1000 ∧
    (schedule_drr (fun _ => none) 1000 flow_udp_5060 record_class2
      (sample_global 3)).2.2 flow_udp_5060 = some 1500 ∧
    (1500 : Nat) ≠ 2 * 1500 - 1000 ∧
    (drr_run (fun _ => none) 1000 flow_udp_5060 (sample_global 3)
      [record_class2, record_class2]).2 flow_udp_5060 = some 2000 := by
  refine ⟨?_, ?_, ?_, ?_, ?_⟩ <;> decide


/-! ## Theorems: PIFO -/

/-- A full queue rejects the packet and writes nothing. -/
theorem schedule_pifo_full (pifo_queue : Nat → Option pifo_entry)
    (pifo_metadata : Nat → Option pifo_meta) (pkt_len now : Nat) (flow : flow_tuple)
    (flow_st : flow_state) (class_id : Nat) (meta : pifo_meta)
    (hm : pifo_metadata class_id = some meta) (hs : meta.size ≥ 1024) :
    schedule_pifo pifo_queue pifo_metadata pkt_len now flow flow_st class_id =
      (TC_ACT_SHOT, pifo_queue, pifo_metadata) := by
  simp only [schedule_pifo, hm, MAX_QUEUE_DEPTH, if_pos hs]

/-- A put at an index inside the array stores the value. -/
theorem array_update_lt {α : Type} (n : Nat) (m : Nat → Option α) (k : Nat) (v : α)
    (hk : k < n) : array_update n m k v = map_update m k v := by
  simp only [array_update, if_pos hk]

/-- A queue that is not full accepts the packet: the entry and metadata written. -/
theorem schedule_pifo_insert (pifo_queue : Nat → Option pifo_entry)
    (pifo_metadata : Nat → Option pifo_meta) (pkt_len now : Nat) (flow : flow_tuple)
    (flow_st : flow_state) (class_id : Nat) (meta : pifo_meta)
    (hm : pifo_metadata class_id = some meta) (hs : meta.size < 1024) :
    schedule_pifo pifo_queue pifo_metadata pkt_len now flow flow_st class_id =
      (TC_ACT_OK,
        array_update 1024 pifo_queue meta.tail
          { rank := pifo_rank flow_st.priority now, enqueue_time := now, packet_len := pkt_len,
            flow_hash := flow.src_ip ^^^ flow.dst_ip, flow := flow },
        map_update pifo_metadata class_id
          { head := meta.head, tail := (meta.tail + 1) % 1024, size := meta.size + 1 }) := by
  have hfull : ¬ meta.size ≥ 1024 := by omega
  have h1 : ((meta.tail + 1) % 2 ^ 32) % 1024 = (meta.tail + 1) % 1024 := by omega
  have h2 : (meta.size + 1) % 2 ^ 32 = meta.size + 1 := by omega
  simp only [schedule_pifo, hm, MAX_QUEUE_DEPTH, if_neg hfull, pifo_rank, h1, h2]

/-- Claim C22. For a class metadata with `size ≤ 1024`, `size ≤ 1024` still
holds after `schedule_pifo`; when `size ≥ 1024` the call returns `TC_ACT_SHOT`
and leaves the buffer and the metadata maps (head, tail, size, every stored
entry) unchanged. -/
theorem pifo_never_exceeds_capacity (pifo_queue : Nat → Option pifo_entry)
    (pifo_metadata : Nat → Option pifo_meta) (pkt_len now : Nat) (flow : flow_tuple)
    (flow_st : flow_state) (class_id : Nat) (meta : pifo_meta)
    (hm : pifo_metadata class_id = some meta) :
    (meta.size ≤ 1024 →
      ∃ meta2, (schedule_pifo pifo_queue pifo_metadata pkt_len now flow flow_st
          class_id).2.2 class_id = some meta2 ∧ meta2.size ≤ 1024) ∧
    (meta.size ≥ 1024 →
      schedule_pifo pifo_queue pifo_metadata pkt_len now flow flow_st class_id =
        (TC_ACT_SHOT, pifo_queue, pifo_metadata)) := by
  constructor
  · intro hle
    by_cases hfull : meta.size ≥ 1024
    · refine ⟨meta, ?_, hle⟩
      rw [schedule_pifo_full pifo_queue pifo_metadata pkt_len now flow flow_st class_id meta
        hm hfull]
      exact hm
    · refine ⟨{ head := meta.head, tail := (meta.tail + 1) % 1024, size := meta.size + 1 },
        ?_, ?_⟩
      · rw [schedule_pifo_insert pifo_queue pifo_metadata pkt_len now flow flow_st class_id
          meta hm (by omega)]
        simp only [map_update, if_true]
      · show meta.size + 1 ≤ 1024
        omega
  · intro hge
    exact schedule_pifo_full pifo_queue pifo_metadata pkt_len now flow flow_st class_id meta
      hm hge

/-- For a 16-bit priority and a 48-bit timestamp the rank is `p * 2^48 + t`. -/
theorem pifo_rank_eq (p t : Nat) (hp : p < 2 ^ 16) (ht : t < 2 ^ 48) :
    pifo_rank p t = p * 2 ^ 48 + t := by
  have h1 : (p * 2 ^ 48) % 2 ^ 64 = p * 2 ^ 48 := by omega
  have h2 : t &&& 0xFFFFFFFFFFFF = t := by
    have h3 : (0xFFFFFFFFFFFF : Nat) = 2 ^ 48 - 1 := by norm_num
    rw [h3, Nat.and_pow_two_sub_one_eq_mod, Nat.mod_eq_of_lt ht]
  unfold pifo_rank
  rw [h1, h2, Nat.mul_comm p (2 ^ 48), ← Nat.mul_add_lt_is_or ht p]

/-- Claim C23. For 16-bit priorities and timestamps below `2^48`,
`rank(p1, t1) < rank(p2, t2)` iff `p1 < p2`, or `p1 = p2` and `t1 < t2`; the
shift loses no bit of the priority, which is the rank divided by `2^48`. -/
theorem pifo_rank_lexicographic (p1 p2 t1 t2 : Nat) (hp1 : p1 < 2 ^ 16) (hp2 : p2 < 2 ^ 16)
    (ht1 : t1 < 2 ^ 48) (ht2 : t2 < 2 ^ 48) :
    (pifo_rank p1 t1 < pifo_rank p2 t2 ↔ p1 < p2 ∨ (p1 = p2 ∧ t1 < t2)) ∧
    (p1 * 2 ^ 48) % 2 ^ 64 = p1 * 2 ^ 48 ∧
    pifo_rank p1 t1 / 2 ^ 48 = p1 ∧ pifo_rank p1 t1 % 2 ^ 48 = t1 := by
  rw [pifo_rank_eq p1 t1 hp1 ht1, pifo_rank_eq p2 t2 hp2 ht2]
  refine ⟨?_, ?_, ?_, ?_⟩ <;> omega

/-- Claim C28. For a class metadata with `size < 1024` whose `tail` is a slot
of the 1024-entry buffer (`tail < 1024`, as every tail the code writes is),
`schedule_pifo` returns `TC_ACT_OK`, writes the entry {rank,
`enqueue_time = now`, `packet_len`, `flow_hash = src_ip xor dst_ip`, the flow
key} at buffer slot `tail`, sets `tail` to `(tail + 1) mod 1024`, which is again
a slot of the buffer, and `size` to `size + 1`, and keeps `head`. -/
theorem schedule_pifo_accepts (pifo_queue : Nat → Option pifo_entry)
    (pifo_metadata : Nat → Option pifo_meta) (pkt_len now : Nat) (flow : flow_tuple)
    (flow_st : flow_state) (class_id : Nat) (meta : pifo_meta)
    (hm : pifo_metadata class_id = some meta) (hs : meta.size < 1024)
    (ht : meta.tail < 1024) :
    schedule_pifo pifo_queue pifo_metadata pkt_len now flow flow_st class_id =
      (TC_ACT_OK,
        map_update pifo_queue meta.tail
          { rank := pifo_rank flow_st.priority now, enqueue_time := now, packet_len := pkt_len,
            flow_hash := flow.src_ip ^^^ flow.dst_ip, flow := flow },
        map_update pifo_metadata class_id
          { head := meta.head, tail := (meta.tail + 1) % 1024, size := meta.size + 1 }) ∧
    (meta.tail + 1) % 1024 < 1024 := by
  rw [schedule_pifo_insert pifo_queue pifo_metadata pkt_len now flow flow_st class_id meta hm
    hs, array_update_lt 1024 pifo_queue meta.tail _ ht]
  exact ⟨rfl, Nat.mod_lt _ (by decide)⟩

/-- Claim C24, evaluation. Class 1 inserts an entry (flow to port 9999) at slot 0
of the one `pifo_queue` array; the next insertion, for class 2 whose tail is
also 0, is accepted and overwrites slot 0, while the metadata of class 1 still
reports one entry (head 0, tail 1, size 1). -/
theorem pifo_classes_share_one_buffer :
    pifo_class1_inserted.1 = TC_ACT_OK ∧
    (pifo_class1_inserted.2.1 0).map (fun e => e.flow) = some flow_udp_9999 ∧
    pifo_class1_inserted.2.2 1 = some { head := 0, tail := 1, size := 1 } ∧
    pifo_class2_inserted.1 = TC_ACT_OK ∧
    (pifo_class2_inserted.2.1 0).map (fun e => e.flow) = some flow_udp_5060 ∧
    pifo_class2_inserted.2.1 0 ≠ pifo_class1_inserted.2.1 0 ∧
    pifo_class2_inserted.2.2 1 = some { head := 0, tail := 1, size := 1 } := by
  refine ⟨?_, ?_, ?_, ?_, ?_, ?_, ?_⟩ <;> decide

/-- Claim C29, evaluation. Two accepted insertions for class 2 with a
non-decreasing clock leave the ranks from head to tail out of order: for
priority 0 and times `2^48 - 1`, `2^48` the ranks are `2^48 - 1, 0` (the rank
keeps 48 bits of the time), and for priorities 5 then 1 at times 100, 200 they
are `5 * 2^48 + 100, 2^48 + 200`. -/
theorem pifo_append_breaks_rank_order :
    (pifo_run (fun _ => none) pifo_meta_empty flow_udp_5060 2
      [(record_class2, 42, 2 ^ 48 - 1), (record_class2, 42, 2 ^ 48)]).1 =
      [TC_ACT_OK, TC_ACT_OK] ∧
    (pifo_run (fun _ => none) pifo_meta_empty flow_udp_5060 2
      [(record_class2, 42, 2 ^ 48 - 1), (record_class2, 42, 2 ^ 48)]).2.2 2 =
      some { head := 0, tail := 2, size := 2 } ∧
    pifo_ranks (pifo_run (fun _ => none) pifo_meta_empty flow_udp_5060 2
      [(record_class2, 42, 2 ^ 48 - 1), (record_class2, 42, 2 ^ 48)]).2.1 0 2 =
      [2 ^ 48 - 1, 0] ∧
    (pifo_run (fun _ => none) pifo_meta_empty flow_udp_5060 2
      [({ record_class2 with priority := 5 }, 42, 100),
        ({ record_class2 with priority := 1 }, 42, 200)]).1 = [TC_ACT_OK, TC_ACT_OK] ∧
    pifo_ranks (pifo_run (fun _ => none) pifo_meta_empty flow_udp_5060 2
      [({ record_class2 with priority := 5 }, 42, 100),
        ({ record_class2 with priority := 1 }, 42, 200)]).2.1 0 2 =
      [5 * 2 ^ 48 + 100, 1 * 2 ^ 48 + 200] ∧
    ¬ List.Sorted (fun a b => a ≤ b) [5 * 2 ^ 48 + 100, 1 * 2 ^ 48 + 200] ∧
    ¬ List.Sorted (fun a b => a ≤ b) [2 ^ 48 - 1, 0] := by
  refine ⟨?_, ?_, ?_, ?_, ?_, ?_, ?_⟩ <;> decide

/-! ## Theorems: examined rule slots and rule loading -/

/-- The loop reads only the slots it visits. -/
theorem classify_loop_congr (r1 r2 : Nat → Option class_rule) (flow : flow_tuple) :
    ∀ (n i : Nat), (∀ j, i ≤ j → j < i + n → r1 j = r2 j) →
      classify_loop r1 flow i n = classify_loop r2 flow i n := by
  intro n
  induction n with
  | zero => intro i _; rfl
  | succ n ih =>
    intro i h
    rw [classify_loop, classify_loop, h i (Nat.le_refl i) (by omega),
      ih (i + 1) (fun j h1 h2 => h j (by omega) (by omega))]

/-- Claim C25. Two rule tables that agree on slots 0 to 15 give the same
`classify_packet` result for every flow key, whatever they hold in later slots. -/
theorem classify_packet_ignores_later_slots (r1 r2 : Nat → Option class_rule)
    (flow : flow_tuple) (h : ∀ i, i < 16 → r1 i = r2 i) :
    classify_packet r1 flow = classify_packet r2 flow := by
  unfold classify_packet RULE_SCAN
  exact classify_loop_congr r1 r2 flow 16 0 (fun j _ h2 => h j (by omega))

/-- The fields of the rule stored for a JSON rule with only `dst_port_min` of the port keys. -/
theorem load_rule_fields (j : json_rule) (p : Nat) (hmin : j.dst_port_min = some (p : Int))
    (hpos : 0 < p) (hlt : p < 65536) (hmax : j.dst_port_max = none) :
    (load_rule_from_json j).dst_port_min = p ∧ (load_rule_from_json j).dst_port_max = p ∧
    (load_rule_from_json j).src_ip = 0 ∧ (load_rule_from_json j).src_ip_mask = 0 ∧
    (load_rule_from_json j).dst_ip = 0 ∧ (load_rule_from_json j).dst_ip_mask = 0 ∧
    (load_rule_from_json j).src_port_min = 0 ∧ (load_rule_from_json j).src_port_max = 0 ∧
    (j.protocol = none → (load_rule_from_json j).protocol = 0) ∧
    (j.class_id = none → (load_rule_from_json j).class_id = 0) ∧
    (j.priority = none → (load_rule_from_json j).priority = 0) := by
  have hp : ((p : Int) % 65536).toNat = p := by omega
  have hc : True ∧ p > 0 := ⟨trivial, hpos⟩
  refine ⟨?_, ?_, rfl, rfl, rfl, rfl, rfl, rfl, ?_, ?_, ?_⟩
  · simp only [load_rule_from_json, hmin, hp]
  · simp only [load_rule_from_json, hmin, hmax, hp, if_pos hc]
  · intro h
    simp only [load_rule_from_json, h]
  · intro h
    simp only [load_rule_from_json, h]
  · intro h
    simp only [load_rule_from_json, h]

/-- Such a rule matches exactly the flows of its protocol to the port `p`. -/
theorem rule_port_only (j : json_rule) (p : Nat) (hmin : j.dst_port_min = some (p : Int))
    (hpos : 0 < p) (hlt : p < 65536) (hmax : j.dst_port_max = none) (flow : flow_tuple) :
    classify_rule (load_rule_from_json j) flow = some (load_rule_from_json j).class_id ↔
      (((load_rule_from_json j).protocol = 0 ∨
          (load_rule_from_json j).protocol = flow.protocol) ∧ flow.dst_port = p) := by
  obtain ⟨h1, h2, _, h4, _, h6, h7, h8, _⟩ := load_rule_fields j p hmin hpos hlt hmax
  constructor
  · intro h
    by_cases hm : rule_matches_spec (load_rule_from_json j) flow
    · obtain ⟨m1, _, _, _, m5⟩ := hm
      rw [h1, h2] at m5
      exact ⟨m1, by omega⟩
    · rw [classify_rule_of_not_matches _ _ hm] at h
      exact Option.noConfusion h
  · intro ⟨hproto, hport⟩
    apply classify_rule_of_matches
    refine ⟨hproto, Or.inl h4, Or.inl h6, Or.inl ⟨h7, h8⟩, Or.inr ?_⟩
    rw [h1, h2]
    omega

/-- Claim C26. A JSON rule that sets `dst_port_min = p` for a port `0 < p < 65536`
and has no `dst_port_max` is stored with `dst_port_min = dst_port_max = p`; the
loop body of `classify_packet` then matches a flow iff its protocol passes and
its destination port is `p`; the address and source port fields are zero, and
`protocol`, `class_id` and `priority` are zero when their key is absent. -/
theorem rule_dst_port_max_defaults (j : json_rule) (p : Nat)
    (hmin : j.dst_port_min = some (p : Int)) (hpos : 0 < p) (hlt : p < 65536)
    (hmax : j.dst_port_max = none) :
    (load_rule_from_json j).dst_port_min = p ∧ (load_rule_from_json j).dst_port_max = p ∧
    (∀ flow : flow_tuple,
      classify_rule (load_rule_from_json j) flow = some (load_rule_from_json j).class_id ↔
        (((load_rule_from_json j).protocol = 0 ∨
            (load_rule_from_json j).protocol = flow.protocol) ∧ flow.dst_port = p)) ∧
    (load_rule_from_json j).src_ip = 0 ∧ (load_rule_from_json j).src_ip_mask = 0 ∧
    (load_rule_from_json j).dst_ip = 0 ∧ (load_rule_from_json j).dst_ip_mask = 0 ∧
    (load_rule_from_json j).src_port_min = 0 ∧ (load_rule_from_json j).src_port_max = 0 ∧
    (j.protocol = none → (load_rule_from_json j).protocol = 0) ∧
    (j.class_id = none → (load_rule_from_json j).class_id = 0) ∧
    (j.priority = none → (load_rule_from_json j).priority = 0) := by
  obtain ⟨h1, h2, h3⟩ := load_rule_fields j p hmin hpos hlt hmax
  exact ⟨h1, h2, fun flow => rule_port_only j p hmin hpos hlt hmax flow, h3⟩

/-! ## Theorems: configuration loading -/

/-- The switch writes only the auxiliary state of the selected discipline. -/
theorem tc_dispatch_frame (m : tc_maps) (skb : sk_buff) (now : Nat) (flow : flow_tuple)
    (flow_st : flow_state) (cfg : class_config) (gcfg : global_config) :
    (gcfg.sched_algorithm ≠ SCHED_ROUND_ROBIN →
      (tc_dispatch m skb now flow flow_st cfg gcfg).2.rr_state = m.rr_state) ∧
    (gcfg.sched_algorithm ≠ SCHED_WEIGHTED_FAIR_QUEUING →
      (tc_dispatch m skb now flow flow_st cfg gcfg).2.wfq_vtime = m.wfq_vtime) ∧
    (gcfg.sched_algorithm ≠ SCHED_STRICT_PRIORITY →
      (tc_dispatch m skb now flow flow_st cfg gcfg).2.last_low_prio_service =
        m.last_low_prio_service) ∧
    (gcfg.sched_algorithm ≠ SCHED_DEFICIT_ROUND_ROBIN →
      (tc_dispatch m skb now flow flow_st cfg gcfg).2.drr_deficit = m.drr_deficit) ∧
    (gcfg.sched_algorithm ≠ SCHED_PIFO →
      (tc_dispatch m skb now flow flow_st cfg gcfg).2.pifo_queue = m.pifo_queue ∧
      (tc_dispatch m skb now flow flow_st cfg gcfg).2.pifo_metadata = m.pifo_metadata) ∧
    (4 < gcfg.sched_algorithm →
      tc_dispatch m skb now flow flow_st cfg gcfg = (TC_ACT_OK, m)) := by
  unfold tc_dispatch
  simp only [SCHED_ROUND_ROBIN, SCHED_WEIGHTED_FAIR_QUEUING, SCHED_STRICT_PRIORITY,
    SCHED_DEFICIT_ROUND_ROBIN, SCHED_PIFO]
  split_ifs with h0 h1 h2 h3 h4
  all_goals
    refine ⟨fun h => ?_, fun h => ?_, fun h => ?_, fun h => ?_, fun h => ?_, fun h => ?_⟩
  all_goals first
    | rfl
    | exact ⟨rfl, rfl⟩
    | (exfalso; omega)

/-- Claim C30. For every value of `sched_algorithm`, `tc_packet_scheduler`
leaves unchanged the auxiliary state of every discipline other than the
selected one (round robin cursors, WFQ virtual times, the strict priority
timestamp, DRR deficits, PIFO buffer and metadata); for a selector above 4 it
returns `TC_ACT_OK` and changes none of them. -/
theorem one_discipline_per_packet (m : tc_maps) (skb : sk_buff) (now : Nat)
    (gcfg : global_config) (hg : m.global_config = some gcfg) :
    (gcfg.sched_algorithm ≠ SCHED_ROUND_ROBIN →
      (tc_packet_scheduler m skb now).2.2.rr_state = m.rr_state) ∧
    (gcfg.sched_algorithm ≠ SCHED_WEIGHTED_FAIR_QUEUING →
      (tc_packet_scheduler m skb now).2.2.wfq_vtime = m.wfq_vtime) ∧
    (gcfg.sched_algorithm ≠ SCHED_STRICT_PRIORITY →
      (tc_packet_scheduler m skb now).2.2.last_low_prio_service = m.last_low_prio_service) ∧
    (gcfg.sched_algorithm ≠ SCHED_DEFICIT_ROUND_ROBIN →
      (tc_packet_scheduler m skb now).2.2.drr_deficit = m.drr_deficit) ∧
    (gcfg.sched_algorithm ≠ SCHED_PIFO →
      (tc_packet_scheduler m skb now).2.2.pifo_queue = m.pifo_queue ∧
      (tc_packet_scheduler m skb now).2.2.pifo_metadata = m.pifo_metadata) ∧
    (4 < gcfg.sched_algorithm →
      (tc_packet_scheduler m skb now).1 = TC_ACT_OK ∧
      (tc_packet_scheduler m skb now).2.2.rr_state = m.rr_state ∧
      (tc_packet_scheduler m skb now).2.2.wfq_vtime = m.wfq_vtime ∧
      (tc_packet_scheduler m skb now).2.2.last_low_prio_service = m.last_low_prio_service ∧
      (tc_packet_scheduler m skb now).2.2.drr_deficit = m.drr_deficit ∧
      (tc_packet_scheduler m skb now).2.2.pifo_queue = m.pifo_queue ∧
      (tc_packet_scheduler m skb now).2.2.pifo_metadata = m.pifo_metadata) := by
  unfold tc_packet_scheduler
  simp only []
  split_ifs with he
  · exact ⟨fun _ => rfl, fun _ => rfl, fun _ => rfl, fun _ => rfl, fun _ => ⟨rfl, rfl⟩,
      fun _ => ⟨rfl, rfl, rfl, rfl, rfl, rfl, rfl⟩⟩
  · cases hf : m.flow_table (extract_flow_tuple skb flow_zero).2 with
    | none =>
      exact ⟨fun _ => rfl, fun _ => rfl, fun _ => rfl, fun _ => rfl, fun _ => ⟨rfl, rfl⟩,
        fun _ => ⟨rfl, rfl, rfl, rfl, rfl, rfl, rfl⟩⟩
    | some flow_st =>
      simp only []
      cases hc : m.class_config flow_st.class_id with
      | none =>
        exact ⟨fun _ => rfl, fun _ => rfl, fun _ => rfl, fun _ => rfl, fun _ => ⟨rfl, rfl⟩,
          fun _ => ⟨rfl, rfl, rfl, rfl, rfl, rfl, rfl⟩⟩
      | some cfg =>
        simp only [hg]
        obtain ⟨f1, f2, f3, f4, f5, f6⟩ :=
          tc_dispatch_frame m skb now (extract_flow_tuple skb flow_zero).2 flow_st cfg gcfg
        refine ⟨f1, f2, f3, f4, f5, fun h => ?_⟩
        rw [f6 h]
        exact ⟨rfl, rfl, rfl, rfl, rfl, rfl, rfl⟩

/-! ### Evaluations and instances: PIFO, rules and configuration -/

/-- Claim C22, instance: an empty queue of class 2. -/
theorem pifo_never_exceeds_capacity_witness :
    pifo_meta_empty 2 = some { head := 0, tail := 0, size := 0 } ∧
    (((0 : Nat) ≤ 1024 →
      ∃ meta2, (schedule_pifo (fun _ => none) pifo_meta_empty 42 100 flow_udp_5060
          record_class2 2).2.2 2 = some meta2 ∧ meta2.size ≤ 1024) ∧
    ((0 : Nat) ≥ 1024 →
      schedule_pifo (fun _ => none) pifo_meta_empty 42 100 flow_udp_5060 record_class2 2 =
        (TC_ACT_SHOT, fun _ => none, pifo_meta_empty))) :=
  ⟨rfl,
    pifo_never_exceeds_capacity (fun _ => none) pifo_meta_empty 42 100 flow_udp_5060
      record_class2 2 { head := 0, tail := 0, size := 0 } rfl⟩

/-- Claim C23, instance: priority 0 at time 5 against priority 1 at time 3. -/
theorem pifo_rank_lexicographic_witness :
    ((0 : Nat) < 2 ^ 16 ∧ (1 : Nat) < 2 ^ 16 ∧ (5 : Nat) < 2 ^ 48 ∧ (3 : Nat) < 2 ^ 48) ∧
    ((pifo_rank 0 5 < pifo_rank 1 3 ↔ 0 < 1 ∨ (0 = 1 ∧ 5 < 3)) ∧
      (0 * 2 ^ 48) % 2 ^ 64 = 0 * 2 ^ 48 ∧
      pifo_rank 0 5 / 2 ^ 48 = 0 ∧ pifo_rank 0 5 % 2 ^ 48 = 5) :=
  ⟨by decide, pifo_rank_lexicographic 0 1 5 3 (by decide) (by decide) (by decide) (by decide)⟩

/-- Claim C25, instance: two tables that differ from slot 16 on. -/
theorem classify_packet_ignores_later_slots_witness :
    rules_voip_only 16 ≠ rules_voip_then_zero 16 ∧
    classify_packet rules_voip_only flow_udp_9999 =
      classify_packet rules_voip_then_zero flow_udp_9999 :=
  ⟨by decide,
    classify_packet_ignores_later_slots rules_voip_only rules_voip_then_zero flow_udp_9999
      (by
        intro i hi
        have h256 : i < 256 := by omega
        simp only [rules_voip_only, rules_voip_then_zero, if_pos hi, if_pos h256])⟩

/-- Claim C26, instance: the rule of the specification scenario. -/
theorem rule_dst_port_max_defaults_witness :
    (json_rule_voip.dst_port_min = some ((5060 : Nat) : Int) ∧
      json_rule_voip.dst_port_max = none) ∧
    (load_rule_from_json json_rule_voip).dst_port_max = 5060 ∧
    (classify_rule (load_rule_from_json json_rule_voip) flow_udp_5060 =
        some (load_rule_from_json json_rule_voip).class_id ↔
      (((load_rule_from_json json_rule_voip).protocol = 0 ∨
          (load_rule_from_json json_rule_voip).protocol = flow_udp_5060.protocol) ∧
        flow_udp_5060.dst_port = 5060)) :=
  ⟨⟨rfl, rfl⟩,
    (rule_dst_port_max_defaults json_rule_voip 5060 rfl (by decide) (by decide) rfl).2.1,
    (rule_dst_port_max_defaults json_rule_voip 5060 rfl (by decide) (by decide) rfl).2.2.1
      flow_udp_5060⟩

/-- Claim C28, instance: class 2 with tail 1023 and 5 stored entries. -/
theorem schedule_pifo_accepts_witness :
    ((fun _ => some { head := 1019, tail := 1023, size := 5 } : Nat → Option pifo_meta) 2 =
        some { head := 1019, tail := 1023, size := 5 } ∧ (5 : Nat) < 1024 ∧
      (1023 : Nat) < 1024) ∧
    schedule_pifo (fun _ => none) (fun _ => some { head := 1019, tail := 1023, size := 5 })
        42 100 flow_udp_5060 record_class2 2 =
      (TC_ACT_OK,
        map_update (fun _ => none) 1023
          { rank := pifo_rank record_class2.priority 100, enqueue_time := 100,
            packet_len := 42, flow_hash := flow_udp_5060.src_ip ^^^ flow_udp_5060.dst_ip,
            flow := flow_udp_5060 },
        map_update (fun _ => some { head := 1019, tail := 1023, size := 5 }) 2
          { head := 1019, tail := (1023 + 1) % 1024, size := 5 + 1 }) :=
  ⟨⟨rfl, by decide, by decide⟩,
    (schedule_pifo_accepts (fun _ => none)
      (fun _ => some { head := 1019, tail := 1023, size := 5 }) 42 100 flow_udp_5060
      record_class2 2 { head := 1019, tail := 1023, size := 5 } rfl (by decide)
      (by decide)).1⟩

/-- Claim C30, instance: round robin selected, no auxiliary state present. -/
theorem one_discipline_per_packet_witness :
    (maps_tc_no_aux 0).global_config = some (sample_global 0) ∧
    ((sample_global 0).sched_algorithm ≠ SCHED_WEIGHTED_FAIR_QUEUING →
      (tc_packet_scheduler (maps_tc_no_aux 0) skb_udp_5060 9).2.2.wfq_vtime =
        (maps_tc_no_aux 0).wfq_vtime) ∧
    ((sample_global 0).sched_algorithm ≠ SCHED_PIFO →
      (tc_packet_scheduler (maps_tc_no_aux 0) skb_udp_5060 9).2.2.pifo_queue =
        (maps_tc_no_aux 0).pifo_queue ∧
      (tc_packet_scheduler (maps_tc_no_aux 0) skb_udp_5060 9).2.2.pifo_metadata =
        (maps_tc_no_aux 0).pifo_metadata) :=
  ⟨rfl,
    (one_discipline_per_packet (maps_tc_no_aux 0) skb_udp_5060 9 (sample_global 0) rfl).2.1,
    (one_discipline_per_packet (maps_tc_no_aux 0) skb_udp_5060 9 (sample_global 0)
      rfl).2.2.2.2.1⟩

/-! ## Theorems: egress queue statistics -/

/-- The switch does not write the queue statistics. -/
theorem tc_dispatch_stats (m : tc_maps) (skb : sk_buff) (now : Nat) (flow : flow_tuple)
    (flow_st : flow_state) (cfg : class_config) (gcfg : global_config) :
    (tc_dispatch m skb now flow flow_st cfg gcfg).2.queue_stats = m.queue_stats := by
  unfold tc_dispatch
  split_ifs <;> rfl

/-- Round robin always returns `TC_ACT_OK`. -/
theorem schedule_round_robin_ret (rr : Nat → Option Nat) (f : flow_state) (c : Nat) :
    (schedule_round_robin rr f c).1 = TC_ACT_OK := by
  unfold schedule_round_robin
  cases rr c <;> rfl

/-- WFQ always returns `TC_ACT_OK`. -/
theorem schedule_wfq_ret (w : Nat → Option Nat) (n : Nat) (f : flow_state) (c : Nat) :
    (schedule_wfq w n f c).1 = TC_ACT_OK := by
  unfold schedule_wfq
  cases w c <;> rfl

/-- Strict priority always returns `TC_ACT_OK`. -/
theorem schedule_strict_priority_ret (T last now : Nat) (f : flow_state) (cfg : class_config) :
    (schedule_strict_priority T last now f cfg).1 = TC_ACT_OK := by
  unfold schedule_strict_priority
  simp only []
  split_ifs <;> rfl

/-- DRR returns `TC_ACT_OK` or `TC_ACT_SHOT`. -/
theorem schedule_drr_ret (d : flow_tuple → Option Nat) (n : Nat) (flow : flow_tuple)
    (f : flow_state) (g : global_config) :
    (schedule_drr d n flow f g).1 = TC_ACT_OK ∨ (schedule_drr d n flow f g).1 = TC_ACT_SHOT := by
  unfold schedule_drr
  cases d flow <;> (simp only []; split_ifs <;> simp)

/-- PIFO returns `TC_ACT_OK` or `TC_ACT_SHOT`. -/
theorem schedule_pifo_ret (q : Nat → Option pifo_entry) (pm : Nat → Option pifo_meta)
    (n now : Nat) (flow : flow_tuple) (f : flow_state) (c : Nat) :
    (schedule_pifo q pm n now flow f c).1 = TC_ACT_OK ∨
      (schedule_pifo q pm n now flow f c).1 = TC_ACT_SHOT := by
  unfold schedule_pifo
  cases pm c with
  | none => exact Or.inr rfl
  | some meta =>
    simp only []
    split_ifs
    · exact Or.inr rfl
    · exact Or.inl rfl

/-- The switch returns `TC_ACT_OK` or `TC_ACT_SHOT`. -/
theorem tc_dispatch_ret (m : tc_maps) (skb : sk_buff) (now : Nat) (flow : flow_tuple)
    (flow_st : flow_state) (cfg : class_config) (gcfg : global_config) :
    (tc_dispatch m skb now flow flow_st cfg gcfg).1 = TC_ACT_OK ∨
      (tc_dispatch m skb now flow flow_st cfg gcfg).1 = TC_ACT_SHOT := by
  unfold tc_dispatch
  split_ifs
  · exact Or.inl (schedule_round_robin_ret _ _ _)
  · exact Or.inl (schedule_wfq_ret _ _ _ _)
  · exact Or.inl (schedule_strict_priority_ret _ _ _ _ _)
  · exact schedule_drr_ret _ _ _ _ _
  · exact schedule_pifo_ret _ _ _ _ _ _ _
  · exact Or.inl rfl

/-- The result of `tc_packet_scheduler` when it reaches the scheduling step. -/
theorem tc_scheduled (m : tc_maps) (skb : sk_buff) (now : Nat) (flow_st : flow_state)
    (cfg : class_config) (gcfg : global_config)
    (he : ¬ (extract_flow_tuple skb flow_zero).1 < 0)
    (hf : m.flow_table (extract_flow_tuple skb flow_zero).2 = some flow_st)
    (hc : m.class_config flow_st.class_id = some cfg) (hg : m.global_config = some gcfg) :
    tc_packet_scheduler m skb now =
      ((tc_dispatch m skb now (extract_flow_tuple skb flow_zero).2 flow_st cfg gcfg).1,
        { skb with priority := cfg.priority },
        { (tc_dispatch m skb now (extract_flow_tuple skb flow_zero).2 flow_st cfg gcfg).2 with
          queue_stats := tc_update_stats
            (tc_dispatch m skb now (extract_flow_tuple skb flow_zero).2 flow_st cfg
              gcfg).2.queue_stats flow_st.class_id
            (tc_dispatch m skb now (extract_flow_tuple skb flow_zero).2 flow_st cfg gcfg).1
            skb.len }) := by
  unfold tc_packet_scheduler
  simp only [if_neg he, hf, hc, hg]

/-- Claim C31, amended. When `tc_packet_scheduler` reaches the scheduling step
and the class has queue statistics, the decision is `TC_ACT_OK` or
`TC_ACT_SHOT`; it adds 1 and `skb->len`, modulo `2^64`, to `dequeued_packets`
and `dequeued_bytes` on `TC_ACT_OK` and to `dropped_packets` and
`dropped_bytes` on `TC_ACT_SHOT` (the exact sums when they stay below `2^64`),
and leaves every other field of that class and the statistics of all other
classes unchanged. -/
theorem tc_queue_statistics (m : tc_maps) (skb : sk_buff) (now : Nat) (flow_st : flow_state)
    (cfg : class_config) (gcfg : global_config) (q : queue_stats)
    (he : ¬ (extract_flow_tuple skb flow_zero).1 < 0)
    (hf : m.flow_table (extract_flow_tuple skb flow_zero).2 = some flow_st)
    (hc : m.class_config flow_st.class_id = some cfg) (hg : m.global_config = some gcfg)
    (hq : m.queue_stats flow_st.class_id = some q) :
    ((tc_packet_scheduler m skb now).1 = TC_ACT_OK ∨
      (tc_packet_scheduler m skb now).1 = TC_ACT_SHOT) ∧
    ((tc_packet_scheduler m skb now).1 = TC_ACT_OK →
      (tc_packet_scheduler m skb now).2.2.queue_stats flow_st.class_id =
        some { q with dequeued_packets := (q.dequeued_packets + 1) % 2 ^ 64,
                      dequeued_bytes := (q.dequeued_bytes + skb.len) % 2 ^ 64 }) ∧
    ((tc_packet_scheduler m skb now).1 = TC_ACT_SHOT →
      (tc_packet_scheduler m skb now).2.2.queue_stats flow_st.class_id =
        some { q with dropped_packets := (q.dropped_packets + 1) % 2 ^ 64,
                      dropped_bytes := (q.dropped_bytes + skb.len) % 2 ^ 64 }) ∧
    (q.dequeued_packets + 1 < 2 ^ 64 → q.dequeued_bytes + skb.len < 2 ^ 64 →
      (tc_packet_scheduler m skb now).1 = TC_ACT_OK →
      (tc_packet_scheduler m skb now).2.2.queue_stats flow_st.class_id =
        some { q with dequeued_packets := q.dequeued_packets + 1,
                      dequeued_bytes := q.dequeued_bytes + skb.len }) ∧
    (q.dropped_packets + 1 < 2 ^ 64 → q.dropped_bytes + skb.len < 2 ^ 64 →
      (tc_packet_scheduler m skb now).1 = TC_ACT_SHOT →
      (tc_packet_scheduler m skb now).2.2.queue_stats flow_st.class_id =
        some { q with dropped_packets := q.dropped_packets + 1,
                      dropped_bytes := q.dropped_bytes + skb.len }) ∧
    (∀ c, c ≠ flow_st.class_id →
      (tc_packet_scheduler m skb now).2.2.queue_stats c = m.queue_stats c) := by
  have hok : ¬ (TC_ACT_SHOT = TC_ACT_OK) := by decide
  rw [tc_scheduled m skb now flow_st cfg gcfg he hf hc hg]
  simp only [tc_dispatch_stats]
  have hret := tc_dispatch_ret m skb now (extract_flow_tuple skb flow_zero).2 flow_st cfg gcfg
  refine ⟨hret, ?_, ?_, ?_, ?_, ?_⟩
  · intro h
    simp only [tc_update_stats, hq, h, if_true, map_update]
  · intro h
    simp only [tc_update_stats, hq, h, if_neg hok, if_true, map_update]
  · intro h1 h2 h
    simp only [tc_update_stats, hq, h, if_true, map_update, Nat.mod_eq_of_lt h1,
      Nat.mod_eq_of_lt h2]
  · intro h1 h2 h
    simp only [tc_update_stats, hq, h, if_neg hok, if_true, map_update, Nat.mod_eq_of_lt h1,
      Nat.mod_eq_of_lt h2]
  · intro c hcne
    simp only [tc_update_stats, hq]
    split_ifs <;> simp only [map_update, if_neg hcne]

/-- Claim C31, counterexample: with `dequeued_packets = 2^64 - 1` an admitted
packet leaves `dequeued_packets = 0`, not the old value plus one. -/
theorem dequeued_packets_wraps :
    maps_tc_stats_max.queue_stats 2 = some { stats_zero with dequeued_packets := 2 ^ 64 - 1 } ∧
    (tc_packet_scheduler maps_tc_stats_max skb_udp_5060 9).1 = TC_ACT_OK ∧
    ((tc_packet_scheduler maps_tc_stats_max skb_udp_5060 9).2.2.queue_stats 2).map
      (fun q => q.dequeued_packets) = some 0 ∧
    (0 : Nat) ≠ (2 ^ 64 - 1) + 1 := by
  refine ⟨rfl, ?_, ?_, ?_⟩ <;> decide

/-! ## Theorems: refill precision and deficit wrap -/

/-- Claim C33, evaluation. With quantum 1500 and a stored deficit of 4294966928
the 32-bit sum wraps to 1132, so a 1400-byte packet, which fits in one quantum,
is rejected; the stored deficit becomes 1132. -/
theorem drr_rejects_after_wrap :
    (1400 : Nat) ≤ drr_quantum (sample_global 3) ∧
    (schedule_drr (fun k => if k = flow_udp_5060 then some 4294966928 else none) 1400
      flow_udp_5060 record_class2 (sample_global 3)).1 = TC_ACT_SHOT ∧
    (schedule_drr (fun k => if k = flow_udp_5060 then some 4294966928 else none) 1400
      flow_udp_5060 record_class2 (sample_global 3)).2.2 flow_udp_5060 = some 1132 := by
  refine ⟨?_, ?_, ?_⟩ <;> decide

/-! ## Theorems: ingress and egress flow key -/

/-- A buffer that the ingress parsing accepts is accepted by `extract_flow_tuple`
with the same key. -/
theorem extract_of_parse (skb : sk_buff) (flow : flow_tuple)
    (hp : parse_flow skb.data = some flow) :
    extract_flow_tuple skb flow_zero = (0, flow) := by
  unfold parse_flow parse_ethhdr parse_ipv4 parse_tcp parse_udp at hp
  unfold extract_flow_tuple
  simp only [ETH_P_IP, IPPROTO_TCP, IPPROTO_UDP, IPPROTO_ICMP] at hp ⊢
  by_cases h14 : 14 > skb.data.length
  · simp [h14] at hp
  · by_cases hty : be16_at skb.data 12 = 2048
    · by_cases h34 : skb.data.length < 34
      · simp [h14, hty, h34] at hp
      · by_cases hfrag : be16_at skb.data 20 &&& 8191 = 0
        · by_cases htcp : byte_at skb.data 23 = 6
          · by_cases hl : skb.data.length < 14 + byte_at skb.data 14 % 16 * 4 + 20
            · simp [h14, hty, h34, hfrag, htcp, hl] at hp
            · simp [h14, hty, h34, hfrag, htcp, hl] at hp
              simp [h14, hty, h34, htcp, hl, ← hp]
          · by_cases hudp : byte_at skb.data 23 = 17
            · by_cases hl : skb.data.length < 14 + byte_at skb.data 14 % 16 * 4 + 8
              · simp [h14, hty, h34, hfrag, htcp, hudp, hl] at hp
              · simp [h14, hty, h34, hfrag, htcp, hudp, hl] at hp
                simp [h14, hty, h34, htcp, hudp, hl, ← hp]
            · have htcp2 : ¬ ((byte_at skb.data 23 : Nat) : Int) = 6 := by omega
              have hudp2 : ¬ ((byte_at skb.data 23 : Nat) : Int) = 17 := by omega
              simp [h14, hty, h34, hfrag, htcp2, hudp2] at hp
              simp [h14, hty, h34, htcp, hudp, ← hp]
        · simp [h14, hty, h34, hfrag] at hp
    · have hty2 : ¬ ((be16_at skb.data 12 : Nat) : Int) = 2048 := by omega
      simp [h14, hty2] at hp

/-- After tracking, the flow has a record. -/
theorem track_flow_self (table : flow_tuple → Option flow_state) (flow : flow_tuple)
    (n now c : Nat) : ∃ st, track_flow table flow n now c flow = some st := by
  unfold track_flow
  cases table flow with
  | none => exact ⟨_, if_pos rfl⟩
  | some st0 => exact ⟨_, if_pos rfl⟩

/-- Claim C36. For every packet buffer on which the ingress parsing yields a
flow key, `extract_flow_tuple` returns `0` on the same buffer with the identical
key (addresses, ports, protocol, padding), and the flow table left by the
ingress program has a record under the key that egress extracts. -/
theorem ingress_egress_same_key (m : xdp_maps) (skb : sk_buff) (now : Nat) (flow : flow_tuple)
    (hp : parse_flow skb.data = some flow) :
    extract_flow_tuple skb flow_zero = (0, flow) ∧
    ∃ st, (xdp_packet_classifier m skb.data now).2.flow_table
      (extract_flow_tuple skb flow_zero).2 = some st := by
  have he := extract_of_parse skb flow hp
  refine ⟨he, ?_⟩
  rw [he, xdp_flow_table m skb.data now flow hp]
  exact track_flow_self _ _ _ _ _

/-! ## Theorems: per-CPU counters -/

/-- The tail of the program counts one `xdp_pass`. -/
theorem xdp_enqueue_exit_cpu (m : xdp_maps) (c n : Nat) :
    (xdp_enqueue_exit m c n).2.cpu_stats =
      m.cpu_stats.map (fun s => { s with xdp_pass := (s.xdp_pass + 1) % 2 ^ 64 }) := by
  unfold xdp_enqueue_exit
  cases m.queue_stats c <;> rfl

/-- The per-CPU counters after one ingress packet. -/
theorem xdp_cpu_step (m : xdp_maps) (data : Packet) (now : Nat) (s : cpu_stats)
    (hs : m.cpu_stats = some s) :
    ∃ s2, (xdp_packet_classifier m data now).2.cpu_stats = some s2 ∧
      s2.total_packets = (s.total_packets + 1) % 2 ^ 64 ∧
      ((s2.xdp_pass = (s.xdp_pass + 1) % 2 ^ 64 ∧ s2.xdp_drop = s.xdp_drop ∧
          s2.dropped_packets = s.dropped_packets) ∨
        (s2.xdp_pass = s.xdp_pass ∧ s2.xdp_drop = (s.xdp_drop + 1) % 2 ^ 64 ∧
          s2.dropped_packets = (s.dropped_packets + 1) % 2 ^ 64)) ∧
      (s2.classified_packets = s.classified_packets ∨
        s2.classified_packets = (s.classified_packets + 1) % 2 ^ 64) ∧
      s2.xdp_tx = s.xdp_tx ∧ s2.xdp_redirect = s.xdp_redirect := by
  unfold xdp_packet_classifier
  simp only [hs, Option.map_some']
  cases parse_flow data with
  | none =>
    exact ⟨_, rfl, rfl, Or.inl ⟨rfl, rfl, rfl⟩, Or.inl rfl, rfl, rfl⟩
  | some flow =>
    simp only []
    cases m.class_config (classify_packet m.class_rules flow) with
    | none =>
      exact ⟨_, rfl, rfl, Or.inl ⟨rfl, rfl, rfl⟩, Or.inr rfl, rfl, rfl⟩
    | some cfg =>
      simp only []
      cases m.token_buckets (classify_packet m.class_rules flow) with
      | none =>
        simp only [xdp_enqueue_exit_cpu, Option.map_some']
        exact ⟨_, rfl, rfl, Or.inl ⟨rfl, rfl, rfl⟩, Or.inr rfl, rfl, rfl⟩
      | some tb =>
        simp only []
        split_ifs
        · exact ⟨_, rfl, rfl, Or.inr ⟨rfl, rfl, rfl⟩, Or.inr rfl, rfl, rfl⟩
        · simp only [xdp_enqueue_exit_cpu, Option.map_some']
          exact ⟨_, rfl, rfl, Or.inl ⟨rfl, rfl, rfl⟩, Or.inr rfl, rfl, rfl⟩
        · simp only [xdp_enqueue_exit_cpu, Option.map_some']
          exact ⟨_, rfl, rfl, Or.inl ⟨rfl, rfl, rfl⟩, Or.inr rfl, rfl, rfl⟩

/-- The counter relations are kept by a run that does not wrap `total_packets`. -/
theorem xdp_run_cpu (pkts : List (Packet × Nat)) :
    ∀ (m : xdp_maps) (s : cpu_stats) (n : Nat), m.cpu_stats = some s →
      cpu_counters_consistent s n → n + pkts.length < 2 ^ 64 →
      ∃ s2, (xdp_run m pkts).2.cpu_stats = some s2 ∧
        cpu_counters_consistent s2 (n + pkts.length) := by
  induction pkts with
  | nil =>
    intro m s n hs hc _
    exact ⟨s, hs, hc⟩
  | cons p rest ih =>
    intro m s n hs hc hlen
    obtain ⟨data, now⟩ := p
    simp only [List.length_cons] at hlen
    obtain ⟨s2, h1, h2, h3, h4, h5, h6⟩ := xdp_cpu_step m data now s hs
    obtain ⟨c1, c2, c3, c4, c5, c6⟩ := hc
    have hc2 : cpu_counters_consistent s2 (n + 1) := by
      refine ⟨?_, ?_, ?_, ?_, ?_, ?_⟩
      · omega
      · rcases h3 with ⟨a, b, _⟩ | ⟨a, b, _⟩ <;> omega
      · rcases h3 with ⟨_, b, c⟩ | ⟨_, b, c⟩ <;> omega
      · rcases h4 with a | a <;> omega
      · omega
      · omega
    obtain ⟨s3, e1, e2⟩ := ih (xdp_packet_classifier m data now).2 s2 (n + 1) h1 hc2 (by omega)
    refine ⟨s3, ?_, ?_⟩
    · simp only [xdp_run]
      exact e1
    · have : n + (rest.length + 1) = n + 1 + rest.length := by omega
      simp only [List.length_cons]
      rw [this]
      exact e2

/-- Claim C37. Starting from zeroed per-CPU counters, after any sequence of
fewer than `2^64` ingress packets: `total_packets` is the number of packets and
equals `xdp_pass + xdp_drop`, `dropped_packets = xdp_drop`,
`classified_packets ≤ total_packets`, and `xdp_tx = xdp_redirect = 0`. -/
theorem cpu_counters_invariant (m : xdp_maps) (pkts : List (Packet × Nat))
    (hz : m.cpu_stats = some cpu_zero) (hlen : pkts.length < 2 ^ 64) :
    ∃ s, (xdp_run m pkts).2.cpu_stats = some s ∧
      s.total_packets = pkts.length ∧ s.total_packets = s.xdp_pass + s.xdp_drop ∧
      s.dropped_packets = s.xdp_drop ∧ s.classified_packets ≤ s.total_packets ∧
      s.xdp_tx = 0 ∧ s.xdp_redirect = 0 := by
  have h0 : cpu_counters_consistent cpu_zero 0 := ⟨rfl, rfl, rfl, Nat.le_refl _, rfl, rfl⟩
  obtain ⟨s, h1, h2⟩ := xdp_run_cpu pkts m cpu_zero 0 hz h0 (by omega)
  rw [Nat.zero_add] at h2
  exact ⟨s, h1, h2⟩

/-! ## Theorems: flow record defaults on the packet path -/

/-- An unparsed packet leaves the flow table unchanged. -/
theorem xdp_flow_table_unparsed (m : xdp_maps) (data : Packet) (now : Nat)
    (hp : parse_flow data = none) :
    (xdp_packet_classifier m data now).2.flow_table = m.flow_table := by
  unfold xdp_packet_classifier
  simp only [hp]
  rfl

/-- Tracking a packet keeps every record at weight 1 and priority 0. -/
theorem track_flow_default (table : flow_tuple → Option flow_state) (flow : flow_tuple)
    (n now c : Nat) (h : records_default table) :
    records_default (track_flow table flow n now c) := by
  intro k st hk
  unfold track_flow at hk
  cases ht : table flow with
  | none =>
    rw [ht] at hk
    simp only [map_update] at hk
    split_ifs at hk with hkf
    · cases hk
      exact ⟨rfl, rfl⟩
    · exact h k st hk
  | some st0 =>
    rw [ht] at hk
    simp only [map_update] at hk
    split_ifs at hk with hkf
    · cases hk
      exact h flow st0 ht
    · exact h k st hk

/-- The ingress program keeps every record at weight 1 and priority 0. -/
theorem xdp_step_default (m : xdp_maps) (data : Packet) (now : Nat)
    (h : records_default m.flow_table) :
    records_default (xdp_packet_classifier m data now).2.flow_table := by
  cases hp : parse_flow data with
  | none => rw [xdp_flow_table_unparsed m data now hp]; exact h
  | some flow =>
    rw [xdp_flow_table m data now flow hp]
    exact track_flow_default _ _ _ _ _ h

/-- Rewriting a record without changing weight and priority keeps the property. -/
theorem update_record_default (table : flow_tuple → Option flow_state) (flow : flow_tuple)
    (st0 st1 : flow_state) (h : records_default table) (h0 : table flow = some st0)
    (hw : st1.weight = st0.weight) (hpr : st1.priority = st0.priority) :
    records_default (map_update table flow st1) := by
  intro k st hk
  simp only [map_update] at hk
  split_ifs at hk with hkf
  · cases hk
    rw [hw, hpr]
    exact h flow st0 h0
  · exact h k st hk

/-- Round robin does not write weight or priority. -/
theorem schedule_round_robin_keeps (rr : Nat → Option Nat) (f : flow_state) (c : Nat) :
    (schedule_round_robin rr f c).2.1.weight = f.weight ∧
      (schedule_round_robin rr f c).2.1.priority = f.priority := by
  unfold schedule_round_robin
  cases rr c <;> exact ⟨rfl, rfl⟩

/-- WFQ does not write weight or priority. -/
theorem schedule_wfq_keeps (w : Nat → Option Nat) (n : Nat) (f : flow_state) (c : Nat) :
    (schedule_wfq w n f c).2.1.weight = f.weight ∧
      (schedule_wfq w n f c).2.1.priority = f.priority := by
  unfold schedule_wfq
  cases w c <;> exact ⟨rfl, rfl⟩

/-- Strict priority does not write weight or priority. -/
theorem schedule_strict_priority_keeps (T last now : Nat) (f : flow_state)
    (cfg : class_config) :
    (schedule_strict_priority T last now f cfg).2.1.weight = f.weight ∧
      (schedule_strict_priority T last now f cfg).2.1.priority = f.priority := by
  unfold schedule_strict_priority
  simp only []
  split_ifs <;> exact ⟨rfl, rfl⟩

/-- DRR does not write weight or priority. -/
theorem schedule_drr_keeps (d : flow_tuple → Option Nat) (n : Nat) (flow : flow_tuple)
    (f : flow_state) (g : global_config) :
    (schedule_drr d n flow f g).2.1.weight = f.weight ∧
      (schedule_drr d n flow f g).2.1.priority = f.priority := by
  unfold schedule_drr
  cases d flow <;> (simp only []; split_ifs <;> exact ⟨rfl, rfl⟩)

/-- The switch keeps every record at weight 1 and priority 0. -/
theorem tc_dispatch_default (m : tc_maps) (skb : sk_buff) (now : Nat) (flow : flow_tuple)
    (flow_st : flow_state) (cfg : class_config) (gcfg : global_config)
    (h : records_default m.flow_table) (h0 : m.flow_table flow = some flow_st) :
    records_default (tc_dispatch m skb now flow flow_st cfg gcfg).2.flow_table := by
  unfold tc_dispatch
  split_ifs
  · exact update_record_default _ _ _ _ h h0 (schedule_round_robin_keeps _ _ _).1
      (schedule_round_robin_keeps _ _ _).2
  · exact update_record_default _ _ _ _ h h0 (schedule_wfq_keeps _ _ _ _).1
      (schedule_wfq_keeps _ _ _ _).2
  · exact update_record_default _ _ _ _ h h0 (schedule_strict_priority_keeps _ _ _ _ _).1
      (schedule_strict_priority_keeps _ _ _ _ _).2
  · exact update_record_default _ _ _ _ h h0 (schedule_drr_keeps _ _ _ _ _).1
      (schedule_drr_keeps _ _ _ _ _).2
  · exact h
  · exact h

/-- The egress program keeps every record at weight 1 and priority 0. -/
theorem tc_step_default (m : tc_maps) (skb : sk_buff) (now : Nat)
    (h : records_default m.flow_table) :
    records_default (tc_packet_scheduler m skb now).2.2.flow_table := by
  unfold tc_packet_scheduler
  simp only []
  split_ifs with he
  · exact h
  · cases hf : m.flow_table (extract_flow_tuple skb flow_zero).2 with
    | none => exact h
    | some flow_st =>
      simp only []
      cases hc : m.class_config flow_st.class_id with
      | none => exact h
      | some cfg =>
        simp only []
        cases hg : m.global_config with
        | none => exact h
        | some gcfg =>
          exact tc_dispatch_default m skb now _ flow_st cfg gcfg h hf

/-- One step of the packet path keeps every record at weight 1 and priority 0. -/
theorem sched_step_default (s : sched_state) (e : packet_event)
    (h : records_default s.x.flow_table) : records_default (sched_step s e).x.flow_table := by
  cases e with
  | ingress data now => exact xdp_step_default s.x data now h
  | egress skb now => exact tc_step_default (shared_view s) skb now h

/-- A run of the packet path keeps every record at weight 1 and priority 0. -/
theorem sched_run_default (events : List packet_event) :
    ∀ s : sched_state, records_default s.x.flow_table →
      records_default (sched_run s events).x.flow_table := by
  induction events with
  | nil => intro s h; exact h
  | cons e rest ih => intro s h; exact ih _ (sched_step_default s e h)

/-- The rank of priority 0 is the low 48 bits of the time. -/
theorem pifo_rank_zero (now : Nat) : pifo_rank 0 now = now % 2 ^ 48 := by
  have h3 : (0xFFFFFFFFFFFF : Nat) = 2 ^ 48 - 1 := by norm_num
  unfold pifo_rank
  rw [h3, Nat.and_pow_two_sub_one_eq_mod]
  simp

/-- With flow weight 1, WFQ adds the packet length to the virtual time. -/
theorem tc_dispatch_wfq_default (m : tc_maps) (skb : sk_buff) (now : Nat) (flow : flow_tuple)
    (st : flow_state) (cfg : class_config) (gcfg : global_config) (vtime : Nat)
    (hw : st.weight = 1) (ha : gcfg.sched_algorithm = SCHED_WEIGHTED_FAIR_QUEUING)
    (hv : m.wfq_vtime st.class_id = some vtime) :
    (tc_dispatch m skb now flow st cfg gcfg).2.wfq_vtime st.class_id =
      some ((vtime + skb.len) % 2 ^ 64) := by
  have h0 : ¬ gcfg.sched_algorithm = SCHED_ROUND_ROBIN := by rw [ha]; decide
  have h1 : (1 : Nat) ≠ 0 := by decide
  simp only [tc_dispatch, if_neg h0, if_pos ha, schedule_wfq, hv, hw, ne_eq, h1,
    not_false_eq_true, if_true, Nat.div_one, map_update]

/-- With flow priority 0, the entry put at slot `tail` of the 1024-entry
buffer has the low 48 bits of the time as its rank; for a tail inside the
buffer the slot then holds that rank. -/
theorem tc_dispatch_pifo_default (m : tc_maps) (skb : sk_buff) (now : Nat) (flow : flow_tuple)
    (st : flow_state) (cfg : class_config) (gcfg : global_config) (meta : pifo_meta)
    (hpr : st.priority = 0) (ha : gcfg.sched_algorithm = SCHED_PIFO)
    (hm : m.pifo_metadata st.class_id = some meta) (hs : meta.size < 1024) :
    (tc_dispatch m skb now flow st cfg gcfg).2.pifo_queue =
        array_update MAX_QUEUE_DEPTH m.pifo_queue meta.tail
          { rank := now % 2 ^ 48, enqueue_time := now, packet_len := skb.len,
            flow_hash := flow.src_ip ^^^ flow.dst_ip, flow := flow } ∧
    (meta.tail < 1024 →
      ((tc_dispatch m skb now flow st cfg gcfg).2.pifo_queue meta.tail).map
        (fun e => e.rank) = some (now % 2 ^ 48)) := by
  have h0 : ¬ gcfg.sched_algorithm = SCHED_ROUND_ROBIN := by rw [ha]; decide
  have h1 : ¬ gcfg.sched_algorithm = SCHED_WEIGHTED_FAIR_QUEUING := by rw [ha]; decide
  have h2 : ¬ gcfg.sched_algorithm = SCHED_STRICT_PRIORITY := by rw [ha]; decide
  have h3 : ¬ gcfg.sched_algorithm = SCHED_DEFICIT_ROUND_ROBIN := by rw [ha]; decide
  have hq : (tc_dispatch m skb now flow st cfg gcfg).2.pifo_queue =
      array_update MAX_QUEUE_DEPTH m.pifo_queue meta.tail
        { rank := now % 2 ^ 48, enqueue_time := now, packet_len := skb.len,
          flow_hash := flow.src_ip ^^^ flow.dst_ip, flow := flow } := by
    simp only [tc_dispatch, if_neg h0, if_neg h1, if_neg h2, if_neg h3, if_pos ha,
      schedule_pifo_insert m.pifo_queue m.pifo_metadata skb.len now flow st st.class_id meta
        hm hs, MAX_QUEUE_DEPTH, hpr, pifo_rank_zero]
  refine ⟨hq, ?_⟩
  intro ht
  rw [hq]
  simp only [MAX_QUEUE_DEPTH, array_update, if_pos ht, map_update, if_true, Option.map_some']

/-- Claim C34, amended. In every state reached from an empty flow table by
ingress and egress packet steps, every flow record has `weight = 1` and
`priority = 0`; hence, for every class config, a WFQ step on such a record
stores the virtual time `(vtime + skb->len) mod 2^64`, and an accepted PIFO
step puts an entry of rank `now mod 2^48` at slot `tail` of the 1024-entry
buffer, which then holds that rank whenever `tail < 1024`. -/
theorem flow_records_keep_defaults (s : sched_state) (events : List packet_event)
    (hempty : ∀ k, s.x.flow_table k = none) :
    (∀ k st, (sched_run s events).x.flow_table k = some st →
      st.weight = 1 ∧ st.priority = 0) ∧
    (∀ k st, (sched_run s events).x.flow_table k = some st →
      ∀ (m : tc_maps) (skb : sk_buff) (now : Nat) (flow : flow_tuple) (cfg : class_config)
        (gcfg : global_config) (vtime : Nat),
        gcfg.sched_algorithm = SCHED_WEIGHTED_FAIR_QUEUING →
        m.wfq_vtime st.class_id = some vtime →
        (tc_dispatch m skb now flow st cfg gcfg).2.wfq_vtime st.class_id =
          some ((vtime + skb.len) % 2 ^ 64)) ∧
    (∀ k st, (sched_run s events).x.flow_table k = some st →
      ∀ (m : tc_maps) (skb : sk_buff) (now : Nat) (flow : flow_tuple) (cfg : class_config)
        (gcfg : global_config) (meta : pifo_meta),
        gcfg.sched_algorithm = SCHED_PIFO →
        m.pifo_metadata st.class_id = some meta → meta.size < 1024 →
        (tc_dispatch m skb now flow st cfg gcfg).2.pifo_queue =
            array_update MAX_QUEUE_DEPTH m.pifo_queue meta.tail
              { rank := now % 2 ^ 48, enqueue_time := now, packet_len := skb.len,
                flow_hash := flow.src_ip ^^^ flow.dst_ip, flow := flow } ∧
          (meta.tail < 1024 →
            ((tc_dispatch m skb now flow st cfg gcfg).2.pifo_queue meta.tail).map
              (fun e => e.rank) = some (now % 2 ^ 48))) := by
  have h0 : records_default s.x.flow_table := by
    intro k st hk
    rw [hempty k] at hk
    exact Option.noConfusion hk
  have hi := sched_run_default events s h0
  refine ⟨hi, ?_, ?_⟩
  · intro k st hk m skb now flow cfg gcfg vtime ha hv
    exact tc_dispatch_wfq_default m skb now flow st cfg gcfg vtime (hi k st hk).1 ha hv
  · intro k st hk m skb now flow cfg gcfg meta ha hm hs
    exact tc_dispatch_pifo_default m skb now flow st cfg gcfg meta (hi k st hk).2 ha hm hs

/-! ## Theorems: PIFO occupancy -/

/-- After a run of PIFO calls the head is unchanged and the size grew by the number of accepted packets. -/
theorem pifo_run_counts (flow : flow_tuple) (class_id : Nat)
    (calls : List (flow_state × Nat × Nat)) :
    ∀ (pifo_queue : Nat → Option pifo_entry) (pifo_metadata : Nat → Option pifo_meta)
      (meta : pifo_meta), pifo_metadata class_id = some meta →
      ∃ meta1, (pifo_run pifo_queue pifo_metadata flow class_id calls).2.2 class_id =
          some meta1 ∧ meta1.head = meta.head ∧
        meta1.size = meta.size +
          (pifo_run pifo_queue pifo_metadata flow class_id calls).1.count TC_ACT_OK := by
  induction calls with
  | nil =>
    intro q pm meta hm
    exact ⟨meta, hm, rfl, rfl⟩
  | cons c rest ih =>
    intro q pm meta hm
    obtain ⟨flow_st, pkt_len, now⟩ := c
    by_cases hfull : meta.size ≥ 1024
    · have e := schedule_pifo_full q pm pkt_len now flow flow_st class_id meta hm hfull
      obtain ⟨meta1, h1, h2, h3⟩ := ih q pm meta hm
      refine ⟨meta1, ?_, h2, ?_⟩
      · simp only [pifo_run, e]
        exact h1
      · have hne : (TC_ACT_SHOT == TC_ACT_OK) = false := by decide
        simp only [pifo_run, e, List.count_cons, hne]
        simpa using h3
    · have e := schedule_pifo_insert q pm pkt_len now flow flow_st class_id meta hm (by omega)
      have hnew : map_update pm class_id
          { head := meta.head, tail := (meta.tail + 1) % 1024, size := meta.size + 1 }
          class_id =
          some { head := meta.head, tail := (meta.tail + 1) % 1024, size := meta.size + 1 } :=
        if_pos rfl
      obtain ⟨meta1, h1, h2, h3⟩ := ih _ _ _ hnew
      refine ⟨meta1, ?_, h2, ?_⟩
      · simp only [pifo_run, e]
        exact h1
      · have heq : (TC_ACT_OK == TC_ACT_OK) = true := by decide
        simp only [pifo_run, e, List.count_cons, heq, if_true]
        simp only [] at h3
        omega

/-- A full queue rejects every packet of a run and stays as it is. -/
theorem pifo_run_full (flow : flow_tuple) (class_id : Nat)
    (calls : List (flow_state × Nat × Nat)) (pifo_queue : Nat → Option pifo_entry)
    (pifo_metadata : Nat → Option pifo_meta) (meta : pifo_meta)
    (hm : pifo_metadata class_id = some meta) (hfull : meta.size ≥ 1024) :
    pifo_run pifo_queue pifo_metadata flow class_id calls =
      (List.replicate calls.length TC_ACT_SHOT, pifo_queue, pifo_metadata) := by
  induction calls with
  | nil => rfl
  | cons c rest ih =>
    obtain ⟨flow_st, pkt_len, now⟩ := c
    have e := schedule_pifo_full pifo_queue pifo_metadata pkt_len now flow flow_st class_id
      meta hm hfull
    simp only [pifo_run, e, ih, List.length_cons, List.replicate_succ]

/-- One PIFO call never lowers a size and never moves a head. -/
theorem schedule_pifo_meta_mono (q : Nat → Option pifo_entry) (pm : Nat → Option pifo_meta)
    (n now : Nat) (flow : flow_tuple) (f : flow_state) (cid c : Nat) (mc : pifo_meta)
    (hc : pm c = some mc) :
    ∃ mc2, (schedule_pifo q pm n now flow f cid).2.2 c = some mc2 ∧ mc.size ≤ mc2.size ∧
      mc2.head = mc.head := by
  cases hm : pm cid with
  | none =>
    refine ⟨mc, ?_, Nat.le_refl _, rfl⟩
    simp only [schedule_pifo, hm]
    exact hc
  | some meta =>
    by_cases hfull : meta.size ≥ 1024
    · rw [schedule_pifo_full q pm n now flow f cid meta hm hfull]
      exact ⟨mc, hc, Nat.le_refl _, rfl⟩
    · rw [schedule_pifo_insert q pm n now flow f cid meta hm (by omega)]
      by_cases hcc : c = cid
      · subst hcc
        rw [hm] at hc
        cases hc
        exact ⟨_, if_pos rfl, Nat.le_succ _, rfl⟩
      · refine ⟨mc, ?_, Nat.le_refl _, rfl⟩
        simp only [map_update, if_neg hcc]
        exact hc

/-- The switch never lowers a PIFO size and never moves a head. -/
theorem tc_dispatch_meta_mono (m : tc_maps) (skb : sk_buff) (now : Nat) (flow : flow_tuple)
    (flow_st : flow_state) (cfg : class_config) (gcfg : global_config) (c : Nat)
    (mc : pifo_meta) (hc : m.pifo_metadata c = some mc) :
    ∃ mc2, (tc_dispatch m skb now flow flow_st cfg gcfg).2.pifo_metadata c = some mc2 ∧
      mc.size ≤ mc2.size ∧ mc2.head = mc.head := by
  by_cases ha : gcfg.sched_algorithm = SCHED_PIFO
  · have h0 : ¬ gcfg.sched_algorithm = SCHED_ROUND_ROBIN := by rw [ha]; decide
    have h1 : ¬ gcfg.sched_algorithm = SCHED_WEIGHTED_FAIR_QUEUING := by rw [ha]; decide
    have h2 : ¬ gcfg.sched_algorithm = SCHED_STRICT_PRIORITY := by rw [ha]; decide
    have h3 : ¬ gcfg.sched_algorithm = SCHED_DEFICIT_ROUND_ROBIN := by rw [ha]; decide
    simp only [tc_dispatch, if_neg h0, if_neg h1, if_neg h2, if_neg h3, if_pos ha]
    exact schedule_pifo_meta_mono _ _ _ _ _ _ _ c mc hc
  · rw [((tc_dispatch_frame m skb now flow flow_st cfg gcfg).2.2.2.2.1 ha).2]
    exact ⟨mc, hc, Nat.le_refl _, rfl⟩

/-- The egress program never lowers a PIFO size and never moves a head. -/
theorem tc_step_meta_mono (m : tc_maps) (skb : sk_buff) (now : Nat) (c : Nat)
    (mc : pifo_meta) (hc : m.pifo_metadata c = some mc) :
    ∃ mc2, (tc_packet_scheduler m skb now).2.2.pifo_metadata c = some mc2 ∧
      mc.size ≤ mc2.size ∧ mc2.head = mc.head := by
  unfold tc_packet_scheduler
  simp only []
  split_ifs with he
  · exact ⟨mc, hc, Nat.le_refl _, rfl⟩
  · cases hf : m.flow_table (extract_flow_tuple skb flow_zero).2 with
    | none => exact ⟨mc, hc, Nat.le_refl _, rfl⟩
    | some flow_st =>
      simp only []
      cases hcf : m.class_config flow_st.class_id with
      | none => exact ⟨mc, hc, Nat.le_refl _, rfl⟩
      | some cfg =>
        simp only []
        cases hg : m.global_config with
        | none => exact ⟨mc, hc, Nat.le_refl _, rfl⟩
        | some gcfg =>
          exact tc_dispatch_meta_mono m skb now _ flow_st cfg gcfg c mc hc

/-- Claim C35. Under `tc_packet_scheduler` the PIFO size of a class never
decreases and its head never moves; after a run of `schedule_pifo` calls for a
class the size has grown by the number of accepted packets; once size plus
accepted packets reaches 1024 (1024 accepted packets on an empty queue), every
later `schedule_pifo` call for the class returns `TC_ACT_SHOT`, whatever the
flow, packet and time. -/
theorem pifo_fills_and_stays_full (pifo_queue : Nat → Option pifo_entry)
    (pifo_metadata : Nat → Option pifo_meta) (flow : flow_tuple) (class_id : Nat)
    (meta : pifo_meta) (calls1 : List (flow_state × Nat × Nat))
    (hm : pifo_metadata class_id = some meta) :
    (∀ (m : tc_maps) (skb : sk_buff) (now c : Nat) (mc : pifo_meta),
      m.pifo_metadata c = some mc →
      ∃ mc2, (tc_packet_scheduler m skb now).2.2.pifo_metadata c = some mc2 ∧
        mc.size ≤ mc2.size ∧ mc2.head = mc.head) ∧
    (∃ meta1, (pifo_run pifo_queue pifo_metadata flow class_id calls1).2.2 class_id =
        some meta1 ∧ meta1.head = meta.head ∧
      meta1.size = meta.size +
        (pifo_run pifo_queue pifo_metadata flow class_id calls1).1.count TC_ACT_OK) ∧
    (meta.size + (pifo_run pifo_queue pifo_metadata flow class_id calls1).1.count TC_ACT_OK ≥
        1024 →
      ∀ (flow2 : flow_tuple) (calls2 : List (flow_state × Nat × Nat)),
        (pifo_run (pifo_run pifo_queue pifo_metadata flow class_id calls1).2.1
          (pifo_run pifo_queue pifo_metadata flow class_id calls1).2.2 flow2 class_id
          calls2).1 = List.replicate calls2.length TC_ACT_SHOT) := by
  obtain ⟨meta1, h1, h2, h3⟩ :=
    pifo_run_counts flow class_id calls1 pifo_queue pifo_metadata meta hm
  refine ⟨fun m skb now c mc hc => tc_step_meta_mono m skb now c mc hc, ⟨meta1, h1, h2, h3⟩, ?_⟩
  intro hge flow2 calls2
  rw [pifo_run_full flow2 class_id calls2 _ _ meta1 h1 (by omega)]

/-! ### Evaluations and instances: statistics, packet path, parsers -/

/-- Claim C31, instance: round robin admits the packet of class 2. -/
theorem tc_queue_statistics_witness :
    (¬ (extract_flow_tuple skb_udp_5060 flow_zero).1 < 0 ∧
      maps_tc_rr.flow_table (extract_flow_tuple skb_udp_5060 flow_zero).2 =
        some record_class2 ∧
      maps_tc_rr.class_config record_class2.class_id = some (sample_class 2 0 0) ∧
      maps_tc_rr.global_config = some (sample_global 0) ∧
      maps_tc_rr.queue_stats record_class2.class_id = some stats_zero) ∧
    ((tc_packet_scheduler maps_tc_rr skb_udp_5060 9).1 = TC_ACT_OK ∨
      (tc_packet_scheduler maps_tc_rr skb_udp_5060 9).1 = TC_ACT_SHOT) ∧
    ((tc_packet_scheduler maps_tc_rr skb_udp_5060 9).1 = TC_ACT_OK →
      (tc_packet_scheduler maps_tc_rr skb_udp_5060 9).2.2.queue_stats
          record_class2.class_id =
        some { stats_zero with
               dequeued_packets := (stats_zero.dequeued_packets + 1) % 2 ^ 64,
               dequeued_bytes := (stats_zero.dequeued_bytes + skb_udp_5060.len) % 2 ^ 64 }) :=
  ⟨by decide,
    (tc_queue_statistics maps_tc_rr skb_udp_5060 9 record_class2 (sample_class 2 0 0)
      (sample_global 0) stats_zero (by decide) (by decide) (by decide) rfl (by decide)).1,
    (tc_queue_statistics maps_tc_rr skb_udp_5060 9 record_class2 (sample_class 2 0 0)
      (sample_global 0) stats_zero (by decide) (by decide) (by decide) rfl (by decide)).2.1⟩

/-- Claim C34, counterexample: from an empty flow table and a virtual time of
`2^64 - 1`, one ingress and one egress packet of 42 bytes leave a record of
weight 1 and the virtual time 41, which is not the old value plus 42. -/
theorem wfq_advance_wraps :
    (sched_start_vtime_max.x.flow_table flow_udp_5060 = none ∧
      sched_start_vtime_max.t.wfq_vtime 2 = some (2 ^ 64 - 1)) ∧
    ((sched_run sched_start_vtime_max events_in_out).x.flow_table flow_udp_5060).map
      (fun f => (f.class_id, f.weight)) = some (2, 1) ∧
    (sched_run sched_start_vtime_max events_in_out).t.wfq_vtime 2 = some 41 ∧
    (41 : Nat) ≠ (2 ^ 64 - 1) + skb_udp_5060.len := by
  refine ⟨⟨rfl, rfl⟩, ?_, ?_, ?_⟩ <;> decide

/-- Claim C34, instance: one ingress and one egress packet from `sched_start`. -/
theorem flow_records_keep_defaults_witness :
    (∀ k, sched_start.x.flow_table k = none) ∧
    (∀ k st, (sched_run sched_start events_in_out).x.flow_table k = some st →
      st.weight = 1 ∧ st.priority = 0) :=
  ⟨fun _ => rfl, (flow_records_keep_defaults sched_start events_in_out (fun _ => rfl)).1⟩

/-- Claim C35, instance: a queue of class 2 with 1022 entries and two more packets. -/
theorem pifo_fills_and_stays_full_witness :
    pifo_meta_nearly_full 2 = some { head := 0, tail := 1022, size := 1022 } ∧
    (∃ meta1, (pifo_run (fun _ => none) pifo_meta_nearly_full flow_udp_5060 2
        [(record_class2, 42, 100), (record_class2, 42, 200)]).2.2 2 = some meta1 ∧
      meta1.head = 0 ∧
      meta1.size = 1022 +
        (pifo_run (fun _ => none) pifo_meta_nearly_full flow_udp_5060 2
          [(record_class2, 42, 100), (record_class2, 42, 200)]).1.count TC_ACT_OK) ∧
    (1022 + (pifo_run (fun _ => none) pifo_meta_nearly_full flow_udp_5060 2
        [(record_class2, 42, 100), (record_class2, 42, 200)]).1.count TC_ACT_OK ≥ 1024 →
      ∀ (flow2 : flow_tuple) (calls2 : List (flow_state × Nat × Nat)),
        (pifo_run
          (pifo_run (fun _ => none) pifo_meta_nearly_full flow_udp_5060 2
            [(record_class2, 42, 100), (record_class2, 42, 200)]).2.1
          (pifo_run (fun _ => none) pifo_meta_nearly_full flow_udp_5060 2
            [(record_class2, 42, 100), (record_class2, 42, 200)]).2.2 flow2 2 calls2).1 =
          List.replicate calls2.length TC_ACT_SHOT) :=
  ⟨rfl,
    (pifo_fills_and_stays_full (fun _ => none) pifo_meta_nearly_full flow_udp_5060 2
      { head := 0, tail := 1022, size := 1022 }
      [(record_class2, 42, 100), (record_class2, 42, 200)] rfl).2⟩

/-- Claim C36, instance: the UDP 5060 frame. -/
theorem ingress_egress_same_key_witness :
    parse_flow skb_udp_5060.data = some flow_udp_5060 ∧
    (extract_flow_tuple skb_udp_5060 flow_zero = (0, flow_udp_5060) ∧
      ∃ st, (xdp_packet_classifier maps_voip skb_udp_5060.data 7).2.flow_table
        (extract_flow_tuple skb_udp_5060 flow_zero).2 = some st) :=
  ⟨by decide, ingress_egress_same_key maps_voip skb_udp_5060 7 flow_udp_5060 (by decide)⟩

/-- Claim C37, instance: two packets on the tables of `maps_voip`. -/
theorem cpu_counters_invariant_witness :
    (maps_voip.cpu_stats = some cpu_zero ∧
      ([(packet_udp_5060, 7), (packet_udp_9999, 8)] : List (Packet × Nat)).length < 2 ^ 64) ∧
    ∃ s, (xdp_run maps_voip [(packet_udp_5060, 7), (packet_udp_9999, 8)]).2.cpu_stats =
        some s ∧
      s.total_packets = ([(packet_udp_5060, 7), (packet_udp_9999, 8)] :
        List (Packet × Nat)).length ∧
      s.total_packets = s.xdp_pass + s.xdp_drop ∧
      s.dropped_packets = s.xdp_drop ∧ s.classified_packets ≤ s.total_packets ∧
      s.xdp_tx = 0 ∧ s.xdp_redirect = 0 :=
  ⟨⟨rfl, by decide⟩,
    cpu_counters_invariant maps_voip [(packet_udp_5060, 7), (packet_udp_9999, 8)] rfl
      (by decide)⟩

/-! ## Theorems: missing scheduler state -/

end XdpSched
